import Mathlib

/-
Formal model of the GoldWen matching-service core (Python), embedded shallowly
in Lean 4 over exact rational arithmetic.

Conventions of the embedding:
* Python floats are modelled as `ℚ`.  All the scoring arithmetic of the source
  is +, -, *, /, abs, min, max on floats, which ℚ models exactly.
* `round(x, n)` is modelled by `pyRound n`, rounding to the nearest multiple of
  `10⁻ⁿ`.  Python rounds exact ties to even; `pyRound` rounds ties up.  The two
  agree except on exact half-ulp ties, and no statement below depends on tie
  behaviour.
* Timestamps are modelled as rational numbers of hours on an absolute axis;
  `(now - t)` then gives the "hours since" quantity the source computes from
  `datetime` subtraction.
* Dictionaries produced by pydantic `model_dump()` are modelled as structures
  with `Option` fields.  A dumped dict always contains every key, so
  `d.get(k)` and `d.get(k, default)` both read the STORED value, which may be
  an explicit `None`: `none` models that stored `None`, and a `.get` default
  never fires on it.  The one dict that can be missing wholesale is
  `preferences` (`user_profile.get("preferences") or {}`): only through that
  `{}` fallback do the inner `.get(k, default)` defaults apply, which the
  model renders as `Profile.preferences : Option Preferences` plus `getD`.
-/

/-- Model of Python `round(x, n)`: round to the nearest multiple of `10⁻ⁿ`. -/
def pyRound (n : ℕ) (x : ℚ) : ℚ := (round (x * 10 ^ n) : ℤ) / 10 ^ n

theorem round_mono_rat {x y : ℚ} (h : x ≤ y) : round x ≤ round y := by
  rw [round_eq, round_eq]
  exact Int.floor_mono (by linarith)

theorem pyRound_mono (n : ℕ) {x y : ℚ} (h : x ≤ y) : pyRound n x ≤ pyRound n y := by
  unfold pyRound
  have hp : (0:ℚ) < 10 ^ n := by positivity
  have h2 : round (x * 10 ^ n) ≤ round (y * 10 ^ n) :=
    round_mono_rat (mul_le_mul_of_nonneg_right h hp.le)
  gcongr

theorem abs_pyRound_sub (n : ℕ) (x : ℚ) : |pyRound n x - x| ≤ 1 / (2 * 10 ^ n) := by
  unfold pyRound
  have hp : (0:ℚ) < 10 ^ n := by positivity
  have h := abs_sub_round (x * 10 ^ n)
  rw [abs_sub_comm] at h
  have hrw : (round (x * 10 ^ n) : ℚ) / 10 ^ n - x
      = ((round (x * 10 ^ n) : ℚ) - x * 10 ^ n) / 10 ^ n := by
    field_simp
    ring
  rw [hrw, abs_div, abs_of_pos hp]
  rw [div_le_div_iff hp (by positivity)]
  calc |(round (x * 10 ^ n) : ℚ) - x * 10 ^ n| * (2 * 10 ^ n)
      ≤ (1 / 2) * (2 * 10 ^ n) := by
        exact mul_le_mul_of_nonneg_right h (by positivity)
    _ = 1 * 10 ^ n := by ring

theorem pyRound_nonneg (n : ℕ) {x : ℚ} (h : 0 ≤ x) : 0 ≤ pyRound n x := by
  have := pyRound_mono n h
  simpa [pyRound] using this

theorem pyRound_le_of_le (n : ℕ) {x b : ℚ} (hb : ∃ k : ℤ, (k : ℚ) = b * 10 ^ n)
    (h : x ≤ b) : pyRound n x ≤ b := by
  obtain ⟨k, hk⟩ := hb
  have hp : (0:ℚ) < 10 ^ n := by positivity
  have h1 : round (x * 10 ^ n) ≤ round ((k : ℚ)) :=
    round_mono_rat (by rw [hk]; exact mul_le_mul_of_nonneg_right h hp.le)
  rw [round_intCast] at h1
  unfold pyRound
  rw [div_le_iff hp, ← hk]
  exact_mod_cast h1

theorem pyRound_mem_unit (n : ℕ) {x : ℚ} (h0 : 0 ≤ x) (h1 : x ≤ 1) :
    0 ≤ pyRound n x ∧ pyRound n x ≤ 1 := by
  constructor
  · exact pyRound_nonneg n h0
  · exact pyRound_le_of_le n ⟨10 ^ n, by push_cast; ring⟩ h1

namespace Services

/-- One personality answer as produced by `PersonalityAnswer.model_dump()`
(`models/schemas.py`): every key present, value possibly `None`. -/
structure Answer where
  questionId : String
  category : Option String := some "personality"
  numericAnswer : Option ℤ := none
  booleanAnswer : Option Bool := none
  multipleChoiceAnswer : Option (List String) := none
  textAnswer : Option String := none
deriving Repr, DecidableEq

/-- Python truthiness of an optional list (`answer["multipleChoiceAnswer"]`):
present and non-empty. -/
def truthyList : Option (List String) → Bool
  | none => false
  | some l => !l.isEmpty

/-- Python truthiness of an optional string (`answer["textAnswer"]`):
present and non-empty. -/
def truthyStr : Option String → Bool
  | none => false
  | some s => !s.isEmpty

/-- Per-question similarity: the `if/elif` dispatch of
`CompatibilityCalculator.calculate_personality_score`
(`services/compatibility_calculator.py`, lines 65-112).  `similarity` is
initialised to `0.0` and stays `0.0` when no branch matches. -/
def answerSimilarity (a1 a2 : Answer) : ℚ :=
  if a1.numericAnswer.isSome ∧ a2.numericAnswer.isSome then
    -- max_distance = 10; distance = abs(...); (max_distance - distance) / max_distance
    ((10 : ℚ) - |((a1.numericAnswer.getD 0 : ℤ) : ℚ) - ((a2.numericAnswer.getD 0 : ℤ) : ℚ)|) / 10
  else if a1.booleanAnswer.isSome ∧ a2.booleanAnswer.isSome then
    if a1.booleanAnswer.getD false = a2.booleanAnswer.getD false then 1 else 0
  else
      if truthyList a1.multipleChoiceAnswer ∧ truthyList a2.multipleChoiceAnswer then
        let choices1 := (a1.multipleChoiceAnswer.getD []).toFinset
        let choices2 := (a2.multipleChoiceAnswer.getD []).toFinset
        let common := choices1 ∩ choices2
        let total := choices1 ∪ choices2
        if total.card ≠ 0 then (common.card : ℚ) / (total.card : ℚ) else 0
      else if truthyStr a1.textAnswer ∧ truthyStr a2.textAnswer then
        if (a1.textAnswer.getD "").toLower = (a2.textAnswer.getD "").toLower then 1
        else 1 / 2
      else 0

/-- `user2_answer_map = {a["questionId"]: a for a in user2_answers}` followed by
`.get(question_id)`: a Python dict comprehension keeps the LAST answer for a
duplicated key, hence the lookup on the reversed list. -/
def answerMap (user2Answers : List Answer) (qid : String) : Option Answer :=
  user2Answers.reverse.find? (fun a => a.questionId == qid)

/-- The pairs the loop of `calculate_personality_score` actually scores:
each answer of user 1 paired with user 2's answer to the same question;
unmatched questions are skipped (`continue`). -/
def sharedPairs (u1 u2 : List Answer) : List (Answer × Answer) :=
  u1.filterMap (fun a1 => (answerMap u2 a1.questionId).map (fun a2 => (a1, a2)))

/-- The similarities collected into `category_scores[c]` (only the four fixed
keys of that dict can ever be appended to).
`category = answer1.get("category", "personality")` reads the stored value —
`model_dump()` always emits the key, so the default applies only when the
field was omitted at schema construction, where pydantic already stored
`"personality"`.  An explicit-null category is `None`, which fails the
`category in category_scores` test and lands in NO bucket; hence the guard is
`p.1.category = some c`, and `none` is collected nowhere. -/
def categoryScores (c : String) (pairs : List (Answer × Answer)) : List ℚ :=
  pairs.filterMap (fun p => if p.1.category = some c then some (answerSimilarity p.1 p.2) else none)

/-- `sum(scores)/len(scores) if scores else 0.5`. -/
def categoryAverage (l : List ℚ) : ℚ :=
  if l.isEmpty then 1 / 2 else l.sum / (l.length : ℚ)

/-- Result record of `calculate_personality_score`. -/
structure PersonalityResult where
  personalityScore : ℚ
  communication : ℚ
  values : ℚ
  lifestyle : ℚ
  personality : ℚ
deriving Repr, DecidableEq

/-- `CompatibilityCalculator.calculate_personality_score`
(`services/compatibility_calculator.py`, lines 19-138). -/
def calculate_personality_score (u1 u2 : List Answer) : PersonalityResult :=
  if u1.isEmpty ∨ u2.isEmpty then
    ⟨1/2, 1/2, 1/2, 1/2, 1/2⟩
  else
    let pairs := sharedPairs u1 u2
    let commonQuestions := pairs.length
    let totalScore := (pairs.map (fun p => answerSimilarity p.1 p.2)).sum
    let personalityScore :=
      if commonQuestions > 0 then totalScore / (commonQuestions : ℚ) else 1/2
    ⟨pyRound 3 personalityScore,
     pyRound 3 (categoryAverage (categoryScores "communication" pairs)),
     pyRound 3 (categoryAverage (categoryScores "values" pairs)),
     pyRound 3 (categoryAverage (categoryScores "lifestyle" pairs)),
     pyRound 3 (categoryAverage (categoryScores "personality" pairs))⟩

/-- `CompatibilityCalculator.extract_shared_interests`
(`services/compatibility_calculator.py`, lines 140-161):
`sorted(list(set(lowered1) & set(lowered2)))`. -/
def extract_shared_interests (i1 i2 : List String) : List String :=
  if i1.isEmpty ∨ i2.isEmpty then []
  else
    let l1 := i1.map String.toLower
    let l2 := i2.map String.toLower
    List.insertionSort (fun a b => a ≤ b) ((l1.filter (fun s => s ∈ l2)).dedup)

/-- `UserPreferences.model_dump()` (`models/schemas.py`): every key present,
value possibly `None`; `none` models an absent/None entry. -/
structure Preferences where
  minAge : Option ℤ := none
  maxAge : Option ℤ := none
  gender : Option String := none
  maxDistance : Option ℚ := none
deriving Repr, DecidableEq

/-- `UserProfile.model_dump()` (`models/schemas.py`).  Timestamps are rational
hours on an absolute axis; messaging counters are the schema's non-negative
integers. -/
structure Profile where
  userId : String := ""
  age : Option ℤ := none
  gender : Option String := none
  interests : List String := []
  personalityAnswers : List Answer := []
  preferences : Option Preferences := none
  latitude : Option ℚ := none
  longitude : Option ℚ := none
  lastActiveAt : Option ℚ := none
  lastLoginAt : Option ℚ := none
  createdAt : Option ℚ := none
  messagesSent : ℕ := 0
  messagesReceived : ℕ := 0
  matchesCount : ℕ := 0
deriving Repr, DecidableEq

/-- The source compares `sqrt(lat_diff**2 + lon_diff**2) * 111 > max_distance`
(`services/compatibility_calculator.py`, lines 343-347).  The left side is a
nonnegative real, so the comparison is equivalent to
`max_distance < 0 ∨ 111² * (lat_diff² + lon_diff²) > max_distance²`,
which is exact over ℚ; the model uses that squared form. -/
def approxDistanceExceeds (lat1 lon1 lat2 lon2 md : ℚ) : Bool :=
  md < 0 ∨ 12321 * (|lat1 - lat2| ^ 2 + |lon1 - lon2| ^ 2) > md ^ 2

/-- Age check of `_calculate_dealbreaker_alignment` (lines 324-331):
`if user2_age:` (present and nonzero) is a check; −0.3 when the age falls
outside `min_age <= user2_age <= max_age`.  The `getD 18` / `getD 100`
defaults realise `{}.get("minAge", 18)` / `{}.get("maxAge", 100)` on the
`or {}` fallback (absent `preferences` ⇒ all-`none` `Preferences`).  When
`preferences` is PRESENT with an explicit-null bound that the chained
comparison reaches (a truthy age, and `None <= a` or `a <= None`), the Python
comparison raises TypeError at line 330 instead of producing a value; that
fault set is captured exactly by `dealbreakerAgeCheckFaults`, the exception is
modelled by `calculate_compatibility_v2_run` returning `none`, and the value
this total function takes on the fault set is never observed there. -/
def dealbreakerAgeStep (prefs : Preferences) (u2age : Option ℤ) : ℚ × ℕ :=
  match u2age with
  | some a =>
      if a ≠ 0 then
        if ¬(prefs.minAge.getD 18 ≤ a ∧ a ≤ prefs.maxAge.getD 100)
        then (1 - 3/10, 1) else (1, 1)
      else (1, 0)
  | none => (1, 0)

/-- Distance check of `_calculate_dealbreaker_alignment` (lines 333-348):
guarded by `all([lat1, lon1, lat2, lon2, max_distance])` (each present and
nonzero); −0.2 when the approximate distance exceeds `max_distance`. -/
def dealbreakerDistStep (s : ℚ × ℕ) (lat1? lon1? lat2? lon2? md? : Option ℚ) : ℚ × ℕ :=
  match lat1?, lon1?, lat2?, lon2?, md? with
  | some lat1, some lon1, some lat2, some lon2, some md =>
      if lat1 ≠ 0 ∧ lon1 ≠ 0 ∧ lat2 ≠ 0 ∧ lon2 ≠ 0 ∧ md ≠ 0 then
        if approxDistanceExceeds lat1 lon1 lat2 lon2 md
        then (s.1 - 2/10, s.2 + 1) else (s.1, s.2 + 1)
      else s
  | _, _, _, _, _ => s

/-- Gender check of `_calculate_dealbreaker_alignment` (lines 350-356):
guarded by `if preferred_gender and user2_gender:`; −0.4 on a mismatch other
than "any". -/
def dealbreakerGenderStep (s : ℚ × ℕ) (g? ug? : Option String) : ℚ × ℕ :=
  match g?, ug? with
  | some g, some ug =>
      if ¬g.isEmpty ∧ ¬ug.isEmpty then
        if g ≠ ug ∧ g ≠ "any" then (s.1 - 4/10, s.2 + 1)
        else (s.1, s.2 + 1)
      else s
  | _, _ => s

/-- `CompatibilityCalculator._calculate_dealbreaker_alignment`
(`services/compatibility_calculator.py`, lines 302-362): run the three checks
in order, return the neutral 0.7 if none applied, else the accumulated score
clamped to [0, 1]. -/
def _calculate_dealbreaker_alignment (user1 user2 : Profile) : ℚ :=
  let prefs := user1.preferences.getD {}
  let s1 := dealbreakerAgeStep prefs user2.age
  let s2 := dealbreakerDistStep s1 user1.latitude user1.longitude
    user2.latitude user2.longitude prefs.maxDistance
  let s3 := dealbreakerGenderStep s2 prefs.gender user2.gender
  if s3.2 = 0 then 7/10 else max 0 (min 1 s3.1)

/-- The inputs on which the age check of `_calculate_dealbreaker_alignment`
raises TypeError (line 330): `preferences` is PRESENT (so no `or {}` default),
the candidate's age is truthy, and the chained comparison
`min_age <= user2_age <= max_age` reaches a stored `None` — immediately when
`minAge` is null, or for `maxAge` only when the first comparison succeeded
(Python's chain short-circuits on a failed first comparison, so a null
`maxAge` behind `min_age > age` records a violation without faulting). -/
def dealbreakerAgeCheckFaults (user1 user2 : Profile) : Bool :=
  match user1.preferences, user2.age with
  | some prefs, some a =>
      a != 0 &&
        (match prefs.minAge with
         | none => true                                        -- `None <= a` raises
         | some lo => decide (lo ≤ a) && prefs.maxAge.isNone)  -- `a <= None` raises
  | _, _ => false

/- ---------- advanced_scoring.py ---------- -/

def ACTIVITY_WEIGHT : ℚ := 3/10
def RESPONSE_RATE_WEIGHT : ℚ := 4/10
def RECIPROCITY_WEIGHT : ℚ := 3/10

/-- The recency decay inside `AdvancedScoringService.calculate_activity_score`
(`services/advanced_scoring.py`, lines 70-80), as a function of
`hours_since_activity`. -/
def activityDecay (h : ℚ) : ℚ :=
  if h ≤ 24 then 1 - h / 24 * (1/10)
  else if h ≤ 72 then 9/10 - (h - 24) / 48 * (2/10)
  else if h ≤ 168 then 7/10 - (h - 72) / 96 * (2/10)
  else if h ≤ 720 then 5/10 - (h - 168) / 552 * (2/10)
  else max 0 (3/10 - (h - 720) / 720 * (3/10))

/-- `AdvancedScoringService.calculate_activity_score`
(`services/advanced_scoring.py`, lines 22-80).  `now` is the evaluation
instant; `account_created_at` is unused by the source after timezone
normalisation and is omitted.  `most_recent = last_active_at or last_login_at`,
upgraded to `max` when both are present. -/
def calculate_activity_score (now : ℚ) (last_active_at last_login_at : Option ℚ) : ℚ :=
  match last_active_at, last_login_at with
  | none, none => 1/2
  | some a, none => activityDecay (now - a)
  | none, some l => activityDecay (now - l)
  | some a, some l => activityDecay (now - max a l)

/-- `AdvancedScoringService.calculate_response_rate_score`
(`services/advanced_scoring.py`, lines 82-138). -/
def calculate_response_rate_score (messages_sent messages_received matches_count : ℕ) : ℚ :=
  if matches_count = 0 then 7/10
  else if messages_sent = 0 ∧ messages_received = 0 then 3/10
  else if messages_received = 0 then 5/10
  else if messages_sent = 0 then 2/10
  else
    let ratio : ℚ := (messages_sent : ℚ) / (messages_received : ℚ)
    let score : ℚ :=
      if 7/10 ≤ ratio ∧ ratio ≤ 3/2 then 1
      else if ratio < 7/10 then max (2/10) (ratio / (7/10))
      else max (5/10) (1 - (ratio - 3/2) * (2/10))
    let message_activity : ℚ := ((min (messages_sent + messages_received) 100 : ℕ) : ℚ) / 100
    let activity_bonus := message_activity * (1/10)
    min 1 (score + activity_bonus)

/-- `AdvancedScoringService.calculate_reciprocity_score`
(`services/advanced_scoring.py`, lines 140-183). -/
def calculate_reciprocity_score (mutual_interests_count : ℕ)
    (mutual_dealbreaker_alignment personality_compatibility : ℚ) : ℚ :=
  let interest_score := min 1 ((mutual_interests_count : ℚ) / 5)
  let reciprocity :=
    mutual_dealbreaker_alignment * (4/10)
    + personality_compatibility * (35/100)
    + interest_score * (25/100)
  min 1 (max 0 reciprocity)

/-- The `user_data` dicts built in `calculate_compatibility_v2` and consumed by
`calculate_advanced_score`. -/
structure UserData where
  lastActiveAt : Option ℚ := none
  lastLoginAt : Option ℚ := none
  createdAt : Option ℚ := none
  messagesSent : ℕ := 0
  messagesReceived : ℕ := 0
  matchesCount : ℕ := 0
  mutualInterests : ℕ := 0
  dealbreakerAlignment : Option ℚ := none
deriving Repr, DecidableEq

/-- Result dict of `AdvancedScoringService.calculate_advanced_score`,
with the nested `details` dict flattened into the last four fields. -/
structure AdvancedResult where
  activityScore : ℚ
  responseRateScore : ℚ
  reciprocityScore : ℚ
  advancedScore : ℚ
  userActivity : ℚ
  targetActivity : ℚ
  userResponseRate : ℚ
  targetResponseRate : ℚ
deriving Repr, DecidableEq

/-- `AdvancedScoringService.calculate_advanced_score`
(`services/advanced_scoring.py`, lines 185-262). -/
def calculate_advanced_score (now : ℚ) (user_data target_user_data : UserData)
    (personality_compatibility : ℚ) : AdvancedResult :=
  let user_activity :=
    calculate_activity_score now user_data.lastActiveAt user_data.lastLoginAt
  let target_activity :=
    calculate_activity_score now target_user_data.lastActiveAt target_user_data.lastLoginAt
  let activity_score := (user_activity + target_activity) / 2
  let user_response :=
    calculate_response_rate_score user_data.messagesSent
      user_data.messagesReceived user_data.matchesCount
  let target_response :=
    calculate_response_rate_score target_user_data.messagesSent
      target_user_data.messagesReceived target_user_data.matchesCount
  let response_rate_score := (user_response + target_response) / 2
  let reciprocity_score :=
    calculate_reciprocity_score user_data.mutualInterests
      (user_data.dealbreakerAlignment.getD (7/10)) personality_compatibility
  let final_score :=
    activity_score * ACTIVITY_WEIGHT
    + response_rate_score * RESPONSE_RATE_WEIGHT
    + reciprocity_score * RECIPROCITY_WEIGHT
  ⟨pyRound 3 activity_score, pyRound 3 response_rate_score,
   pyRound 3 reciprocity_score, pyRound 3 final_score,
   pyRound 3 user_activity, pyRound 3 target_activity,
   pyRound 3 user_response, pyRound 3 target_response⟩

/- ---------- aggregation (compatibility_calculator.py) ---------- -/

def V1_WEIGHT : ℚ := 6/10
def V2_WEIGHT : ℚ := 4/10

/-- Result dict of `calculate_compatibility_v1`, with the `details` dict
flattened. -/
structure V1Result where
  compatibilityScore : ℚ
  communication : ℚ
  values : ℚ
  lifestyle : ℚ
  personality : ℚ
  sharedInterests : List String
deriving Repr, DecidableEq

/-- `CompatibilityCalculator.calculate_compatibility_v1`
(`services/compatibility_calculator.py`, lines 163-201). -/
def calculate_compatibility_v1 (user1_profile user2_profile : Profile) : V1Result :=
  let pr := calculate_personality_score user1_profile.personalityAnswers
    user2_profile.personalityAnswers
  let shared := extract_shared_interests user1_profile.interests user2_profile.interests
  ⟨pyRound 1 (pr.personalityScore * 100),
   pr.communication, pr.values, pr.lifestyle, pr.personality, shared⟩

/-- Result dict of `calculate_compatibility_v2`, with `details` flattened. -/
structure V2Result where
  compatibilityScore : ℚ
  communication : ℚ
  values : ℚ
  lifestyle : ℚ
  personality : ℚ
  advancedFactors : AdvancedResult
  sharedInterests : List String
deriving Repr, DecidableEq

/-- The `user_data` dict built for one direction inside
`calculate_compatibility_v2` (lines 238-262). -/
def v2UserData (shared : List String) (user other : Profile) : UserData :=
  { lastActiveAt := user.lastActiveAt
    lastLoginAt := user.lastLoginAt
    createdAt := user.createdAt
    messagesSent := user.messagesSent
    messagesReceived := user.messagesReceived
    matchesCount := user.matchesCount
    mutualInterests := shared.length
    dealbreakerAlignment := some (_calculate_dealbreaker_alignment user other) }

/-- `CompatibilityCalculator.calculate_compatibility_v2`
(`services/compatibility_calculator.py`, lines 203-300). -/
def calculate_compatibility_v2 (now : ℚ) (user1_profile user2_profile : Profile) : V2Result :=
  let pr := calculate_personality_score user1_profile.personalityAnswers
    user2_profile.personalityAnswers
  let personality_score := pr.personalityScore
  let shared := extract_shared_interests user1_profile.interests user2_profile.interests
  let user1_data := v2UserData shared user1_profile user2_profile
  let user2_data := v2UserData shared user2_profile user1_profile
  let advanced_result := calculate_advanced_score now user1_data user2_data personality_score
  let final_score := personality_score * V1_WEIGHT + advanced_result.advancedScore * V2_WEIGHT
  ⟨pyRound 1 (final_score * 100),
   pr.communication, pr.values, pr.lifestyle, pr.personality,
   advanced_result, shared⟩

/-- `calculate_compatibility_v2` raises (returns no result) iff either
directional dealbreaker age check faults — the `user1_data` dict at lines
246-248 is built first, then `user2_data` at lines 259-261, and an exception
in either propagates out of the call. -/
def v2Faults (user1_profile user2_profile : Profile) : Bool :=
  dealbreakerAgeCheckFaults user1_profile user2_profile
  || dealbreakerAgeCheckFaults user2_profile user1_profile

/-- The observable behaviour of a `calculate_compatibility_v2` call, with the
TypeError path made explicit: `none` models the exception escaping the call
(surfaced by `main.py` as a 500 error, never as a result dict); on every
non-faulting input the call returns the total model's dict. -/
def calculate_compatibility_v2_run (now : ℚ) (user1_profile user2_profile : Profile) :
    Option V2Result :=
  if v2Faults user1_profile user2_profile then none
  else some (calculate_compatibility_v2 now user1_profile user2_profile)

/- ---------- cache.py ---------- -/

/-- `CacheService._make_key` (`services/cache.py`, lines 60-74):
`sorted` orders the two user IDs lexicographically (Python string `<`, which
compares Unicode code points, matching Lean's `String` order). -/
def _make_key (user1_id user2_id : String) (version : String) : String :=
  if user1_id ≤ user2_id then
    "compatibility:" ++ version ++ ":" ++ user1_id ++ ":" ++ user2_id
  else
    "compatibility:" ++ version ++ ":" ++ user2_id ++ ":" ++ user1_id

end Services

namespace App

/-
Model of `app/services/matching_algorithm.py` (the gated aggregator and the
daily-selection ranker).  Two of its helpers compute transcendental-valued
floats that have no exact ℚ embedding:
`_calculate_personality_compatibility` (cosine similarity) and
`_calculate_distance` (haversine with sin/cos/asin); the same holds for
`_calculate_preferences_compatibility`, which consumes the distance.  The
model therefore takes those three helpers as function parameters and proves
its statements for EVERY instantiation, so they hold in particular for the
real cosine-similarity and haversine functions.
-/

/-- `Gender` enum (`app/models/matching.py`). -/
inductive Gender
  | man
  | woman
  | nonBinary
  | other
deriving Repr, DecidableEq

/-- `PersonalityAnswer` (`app/models/matching.py`). -/
structure PersonalityAnswer where
  question_id : String
  text_answer : Option String := none
  numeric_answer : Option ℤ := none
  boolean_answer : Option Bool := none
  multiple_choice_answer : Option (List String) := none
deriving Repr, DecidableEq

/-- `UserPreferences` (`app/models/matching.py`): all fields required. -/
structure UserPreferences where
  min_age : ℤ
  max_age : ℤ
  max_distance : ℚ
  interested_in_genders : List Gender
deriving Repr, DecidableEq

/-- `UserProfile` (`app/models/matching.py`); the `location` dict is flattened
into its two coordinates. -/
structure UserProfile where
  user_id : String
  age : ℤ
  gender : Gender
  latitude : ℚ
  longitude : ℚ
  personality_answers : List PersonalityAnswer := []
  preferences : UserPreferences
  interests : List String := []
deriving Repr, DecidableEq

/-- `CompatibilityResponse` (`app/models/matching.py`). -/
structure CompatibilityResponse where
  compatibility_score : ℚ
  personality_compatibility : ℚ
  preferences_compatibility : ℚ
  shared_interests : List String
  reasons : List String
deriving Repr, DecidableEq

/-- The algorithm-parameter block of `app/core/config.py` (`Settings`); the
values are environment-overridable, so the model keeps them abstract. -/
structure AppSettings where
  MIN_COMPATIBILITY_SCORE : ℚ := 3/10
  COMPATIBILITY_WEIGHTS_PERSONALITY : ℚ := 6/10
  COMPATIBILITY_WEIGHTS_PREFERENCES : ℚ := 4/10
deriving Repr, DecidableEq

/-- The type of `_calculate_distance(lat1, lon1, lat2, lon2)`. -/
abbrev DistanceFn := ℚ → ℚ → ℚ → ℚ → ℚ

/-- `MatchingAlgorithm._check_basic_compatibility`
(`app/services/matching_algorithm.py`, lines 182-211). -/
def _check_basic_compatibility (dist : DistanceFn) (user1 user2 : UserProfile) : Bool :=
  if ¬(user1.preferences.min_age ≤ user2.age ∧ user2.age ≤ user1.preferences.max_age) then
    false
  else if ¬(user2.preferences.min_age ≤ user1.age ∧ user1.age ≤ user2.preferences.max_age) then
    false
  else if user2.gender ∉ user1.preferences.interested_in_genders then false
  else if user1.gender ∉ user2.preferences.interested_in_genders then false
  else
    let distance := dist user1.latitude user1.longitude user2.latitude user2.longitude
    if distance > user1.preferences.max_distance ∨ distance > user2.preferences.max_distance
    then false
    else true

/-- `MatchingAlgorithm._find_shared_interests`
(`app/services/matching_algorithm.py`, lines 268-280):
`list(set(interests1) & set(interests2))`.  Python's set-iteration order is
unspecified (hash-dependent); the model fixes the one canonical enumeration
`dedup ∘ filter`.  No statement below depends on the order of this list. -/
def _find_shared_interests (interests1 interests2 : List String) : List String :=
  if interests1.isEmpty ∨ interests2.isEmpty then []
  else (interests1.filter (fun s => s ∈ interests2)).dedup

/-- `MatchingAlgorithm._generate_compatibility_reasons`
(`app/services/matching_algorithm.py`, lines 282-311).  The interest strings
are interpolated via `", ".join`. -/
def _generate_compatibility_reasons (personality_score preferences_score : ℚ)
    (shared_interests : List String) : List String :=
  let r1 : List String :=
    if personality_score > 7/10 then ["Highly compatible personalities"]
    else if personality_score > 1/2 then ["Good personality match"]
    else []
  let r2 : List String :=
    if preferences_score > 7/10 then ["Well-aligned preferences"]
    else if preferences_score > 1/2 then ["Compatible preferences"]
    else []
  let r3 : List String :=
    if shared_interests.length > 2 then
      ["Many shared interests: " ++ String.intercalate ", " (shared_interests.take 3)]
    else if shared_interests.length > 0 then
      ["Shared interests: " ++ String.intercalate ", " shared_interests]
    else []
  let reasons := r1 ++ r2 ++ r3
  if reasons.isEmpty then ["Basic compatibility criteria met"] else reasons

/-- The result built when the eligibility gate fails
(`app/services/matching_algorithm.py`, lines 41-48). -/
def gatedResult : CompatibilityResponse :=
  ⟨0, 0, 0, [], ["Basic compatibility criteria not met"]⟩

/-- `MatchingAlgorithm.calculate_compatibility`
(`app/services/matching_algorithm.py`, lines 28-92), parametrised over the
three transcendental helpers (`persFn` = `_calculate_personality_compatibility`,
`prefFn` = `_calculate_preferences_compatibility`, `dist` =
`_calculate_distance`). -/
def calculate_compatibility (persFn : List PersonalityAnswer → List PersonalityAnswer → ℚ)
    (prefFn : UserProfile → UserProfile → ℚ) (dist : DistanceFn)
    (settings : AppSettings) (user1 user2 : UserProfile) : CompatibilityResponse :=
  if ¬_check_basic_compatibility dist user1 user2 then gatedResult
  else
    let personality_score := persFn user1.personality_answers user2.personality_answers
    let preferences_score := prefFn user1 user2
    let shared_interests := _find_shared_interests user1.interests user2.interests
    let final_score :=
      personality_score * settings.COMPATIBILITY_WEIGHTS_PERSONALITY
      + preferences_score * settings.COMPATIBILITY_WEIGHTS_PREFERENCES
    let interest_boost := min ((shared_interests.length : ℚ) * (5/100)) (2/10)
    let final_score := min (final_score + interest_boost) 1
    let reasons := _generate_compatibility_reasons personality_score preferences_score
      shared_interests
    ⟨pyRound 3 final_score, pyRound 3 personality_score, pyRound 3 preferences_score,
     shared_interests, reasons⟩

/-- `DailySelectionResponse` (`app/models/matching.py`); the score dict is an
insertion-ordered association list. -/
structure DailySelectionResponse where
  selected_profiles : List UserProfile
  compatibility_scores : List (String × ℚ)
deriving Repr, DecidableEq

/-- Lookup in a Python dict built by sequential insertion: the LAST binding of
a key wins. -/
def dictLookup (l : List (String × ℚ)) (k : String) : Option ℚ :=
  l.foldl (fun acc kv => if kv.1 == k then some kv.2 else acc) none

/-- The comparison realised by Python's stable `list.sort(key=..., reverse=True)`:
sorting is stable, so the produced order is exactly non-increasing key order
with ties in original list position.  Elements are paired with their original
position, which makes that order a total preorder. -/
def selRel (key : UserProfile → ℚ) (x y : ℕ × UserProfile) : Prop :=
  key y.2 < key x.2 ∨ (key x.2 = key y.2 ∧ x.1 ≤ y.1)

instance (key : UserProfile → ℚ) : DecidableRel (selRel key) := fun x y => by
  unfold selRel; infer_instance

instance (key : UserProfile → ℚ) : IsTotal (ℕ × UserProfile) (selRel key) where
  total x y := by
    unfold selRel
    rcases lt_trichotomy (key x.2) (key y.2) with h | h | h
    · exact Or.inr (Or.inl h)
    · rcases Nat.le_total x.1 y.1 with h' | h'
      · exact Or.inl (Or.inr ⟨h, h'⟩)
      · exact Or.inr (Or.inr ⟨h.symm, h'⟩)
    · exact Or.inl (Or.inl h)

instance (key : UserProfile → ℚ) : IsTrans (ℕ × UserProfile) (selRel key) where
  trans x y z hxy hyz := by
    unfold selRel at *
    rcases hxy with h1 | ⟨h1, h1'⟩ <;> rcases hyz with h2 | ⟨h2, h2'⟩
    · exact Or.inl (h2.trans h1)
    · exact Or.inl (h2 ▸ h1)
    · exact Or.inl (h1 ▸ h2)
    · exact Or.inr ⟨h1.trans h2, h1'.trans h2'⟩

/-- The intermediate state of `generate_daily_selection`
(`app/services/matching_algorithm.py`, lines 113-129): one pass appending each
candidate that reaches the threshold to `compatible_profiles` and recording its
score in the `compatibility_scores` dict, followed by the stable descending
sort keyed on `compatibility_scores[p.user_id]`.  Candidates are enumerated
(paired with their input position) to express the sort's stability. -/
def candScore (persFn : List PersonalityAnswer → List PersonalityAnswer → ℚ)
    (prefFn : UserProfile → UserProfile → ℚ) (dist : DistanceFn) (settings : AppSettings)
    (user_profile p : UserProfile) : ℚ :=
  (calculate_compatibility persFn prefFn dist settings user_profile p).compatibility_score

/-- The `compatible_profiles` list (lines 117-123): the candidates reaching
the threshold, in input order, paired with their input position. -/
def compatibleProfiles (persFn : List PersonalityAnswer → List PersonalityAnswer → ℚ)
    (prefFn : UserProfile → UserProfile → ℚ) (dist : DistanceFn) (settings : AppSettings)
    (user_profile : UserProfile) (available_profiles : List UserProfile) :
    List (ℕ × UserProfile) :=
  available_profiles.enum.filter
    (fun ip => settings.MIN_COMPATIBILITY_SCORE ≤ candScore persFn prefFn dist settings user_profile ip.2)

/-- The `compatibility_scores` dict (same loop): one binding per candidate that
reached the threshold, in input order. -/
def scoresDict (persFn : List PersonalityAnswer → List PersonalityAnswer → ℚ)
    (prefFn : UserProfile → UserProfile → ℚ) (dist : DistanceFn) (settings : AppSettings)
    (user_profile : UserProfile) (available_profiles : List UserProfile) :
    List (String × ℚ) :=
  (compatibleProfiles persFn prefFn dist settings user_profile available_profiles).map
    (fun ip => (ip.2.user_id, candScore persFn prefFn dist settings user_profile ip.2))

/-- The sort key `lambda p: compatibility_scores[p.user_id]` (line 127).  The
lookup cannot raise `KeyError` for a compatible profile; `getD 0` totalises it. -/
def sortKey (persFn : List PersonalityAnswer → List PersonalityAnswer → ℚ)
    (prefFn : UserProfile → UserProfile → ℚ) (dist : DistanceFn) (settings : AppSettings)
    (user_profile : UserProfile) (available_profiles : List UserProfile)
    (p : UserProfile) : ℚ :=
  (dictLookup (scoresDict persFn prefFn dist settings user_profile available_profiles)
    p.user_id).getD 0

/-- `compatible_profiles` after the stable descending sort of lines 126-129. -/
def rankedCandidates (persFn : List PersonalityAnswer → List PersonalityAnswer → ℚ)
    (prefFn : UserProfile → UserProfile → ℚ) (dist : DistanceFn) (settings : AppSettings)
    (user_profile : UserProfile) (available_profiles : List UserProfile) :
    List (ℕ × UserProfile) :=
  List.insertionSort
    (selRel (sortKey persFn prefFn dist settings user_profile available_profiles))
    (compatibleProfiles persFn prefFn dist settings user_profile available_profiles)

/-- `MatchingAlgorithm.generate_daily_selection`
(`app/services/matching_algorithm.py`, lines 94-143). -/
def generate_daily_selection (persFn : List PersonalityAnswer → List PersonalityAnswer → ℚ)
    (prefFn : UserProfile → UserProfile → ℚ) (dist : DistanceFn) (settings : AppSettings)
    (user_profile : UserProfile) (available_profiles : List UserProfile)
    (selection_size : ℕ) : DailySelectionResponse :=
  if available_profiles.isEmpty then ⟨[], []⟩
  else
    let sorted := rankedCandidates persFn prefFn dist settings user_profile available_profiles
    let selected := (sorted.take selection_size).map (fun ip => ip.2)
    -- `selected_scores = {p.user_id: compatibility_scores[p.user_id] for p in selected}`
    ⟨selected, selected.map (fun p =>
      (p.user_id, sortKey persFn prefFn dist settings user_profile available_profiles p))⟩

end App

/- ====================================================================
   Theorems for the claims
   ==================================================================== -/

theorem string_data_append (a b : String) : (a ++ b).data = a.data ++ b.data := rfl

/-- Two cache keys built from different two-character versions are never equal:
they differ at the character following the `compatibility:` prefix. -/
theorem cache_key_version_ne (x1 y1 x2 y2 : String) :
    "compatibility:" ++ "v1" ++ ":" ++ x1 ++ ":" ++ y1
    ≠ "compatibility:" ++ "v2" ++ ":" ++ x2 ++ ":" ++ y2 := by
  intro h
  have hd : ("compatibility:" ++ "v1" ++ ":" ++ x1 ++ ":" ++ y1).data
      = ("compatibility:" ++ "v2" ++ ":" ++ x2 ++ ":" ++ y2).data := by rw [h]
  simp only [string_data_append, List.append_assoc] at hd
  have hd2 := List.append_cancel_left hd
  have := (List.append_inj hd2 (by decide)).1
  exact absurd this (by decide)

/-- C5: `_make_key` is symmetric in the two user IDs, keys for versions "v1"
and "v2" always differ, and the key follows the format
`compatibility:<version>:<minId>:<maxId>` with IDs ordered lexicographically. -/
theorem c5_cache_key_properties :
    (∀ a b v : String, Services._make_key a b v = Services._make_key b a v)
    ∧ (∀ a b : String, Services._make_key a b "v1" ≠ Services._make_key a b "v2")
    ∧ (∀ a b v : String,
        Services._make_key a b v = "compatibility:" ++ v ++ ":" ++ min a b ++ ":" ++ max a b) := by
  refine ⟨?_, ?_, ?_⟩
  · intro a b v
    unfold Services._make_key
    rcases le_total a b with h | h
    · rw [if_pos h]
      by_cases h' : b ≤ a
      · have hab : a = b := le_antisymm h h'
        subst hab
        simp
      · rw [if_neg h']
    · rw [if_pos h]
      by_cases h' : a ≤ b
      · have hab : a = b := le_antisymm h' h
        subst hab
        simp
      · rw [if_neg h']
  · intro a b
    unfold Services._make_key
    by_cases h : a ≤ b
    · rw [if_pos h, if_pos h]
      exact cache_key_version_ne a b a b
    · rw [if_neg h, if_neg h]
      exact cache_key_version_ne b a b a
  · intro a b v
    unfold Services._make_key
    by_cases h : a ≤ b
    · rw [if_pos h, min_eq_left h, max_eq_right h]
    · have h' : b ≤ a := le_of_not_le h
      rw [if_neg h, min_eq_right h', max_eq_left h']

/-- C3 counterexample: numeric answers 1 and 10 yield per-question similarity
0.1, not the 0.0 the claim states; the source divides `10 - |a-b|` by 10
without any clamping, and `|1-10| = 9` gives `1/10`. -/
theorem c3_counterexample :
    Services.answerSimilarity ⟨"q1", some "values", some 1, none, none, none⟩
        ⟨"q1", some "values", some 10, none, none, none⟩ = 1/10
    ∧ ¬(Services.answerSimilarity ⟨"q1", some "values", some 1, none, none, none⟩
        ⟨"q1", some "values", some 10, none, none, none⟩ = 0) := by
  constructor
  · show ((10 : ℚ) - |(1 : ℚ) - (10 : ℚ)|) / 10 = 1/10
    norm_num
  · show ¬((10 : ℚ) - |(1 : ℚ) - (10 : ℚ)|) / 10 = 0
    norm_num

/-- C3 (amended): for every pair of numeric answers, the per-question
similarity equals `(10 − |a−b|) / 10` with no clamping; identical values yield
1.0, and the values 1 and 10 yield 0.1 (also end-to-end through
`calculate_personality_score`). -/
theorem c3_numeric_similarity :
    (∀ (q1 q2 : String) (c1 c2 : Option String) (b1 b2 : Option Bool)
        (m1 m2 : Option (List String)) (t1 t2 : Option String) (n m : ℤ),
      Services.answerSimilarity ⟨q1, c1, some n, b1, m1, t1⟩ ⟨q2, c2, some m, b2, m2, t2⟩
        = ((10 : ℚ) - |(n : ℚ) - (m : ℚ)|) / 10)
    ∧ (∀ (q1 q2 : String) (c1 c2 : Option String) (n : ℤ),
      Services.answerSimilarity ⟨q1, c1, some n, none, none, none⟩
        ⟨q2, c2, some n, none, none, none⟩ = 1)
    ∧ (Services.calculate_personality_score
        [⟨"q1", some "values", some 1, none, none, none⟩]
        [⟨"q1", some "values", some 10, none, none, none⟩]).personalityScore = 1/10 := by
  refine ⟨?_, ?_, ?_⟩
  · intro q1 q2 c1 c2 b1 b2 m1 m2 t1 t2 n m
    rfl
  · intro q1 q2 c1 c2 n
    show ((10 : ℚ) - |(n : ℚ) - (n : ℚ)|) / 10 = 1
    simp
  · have h1 : Services.sharedPairs
          [⟨"q1", some "values", some 1, none, none, none⟩]
          [⟨"q1", some "values", some 10, none, none, none⟩]
        = [(⟨"q1", some "values", some 1, none, none, none⟩,
            ⟨"q1", some "values", some 10, none, none, none⟩)] := rfl
    rw [Services.calculate_personality_score]
    rw [if_neg (by simp)]
    simp only [h1, List.length_cons, List.length_nil, List.map_cons, List.map_nil,
      List.sum_cons, List.sum_nil]
    rw [if_pos (by norm_num)]
    norm_num [Services.answerSimilarity, pyRound, round_eq]

/-- The response-rate case analysis as the specification words it (§4.2),
written independently of the source for a refinement comparison: new accounts
0.7; no messages 0.3; received-but-never-sent 0.2; sent-but-never-received
0.5; otherwise the ratio analysis with the volume bonus capped at 1.0. -/
def responseRateSpec (sent received matchCount : ℕ) : ℚ :=
  if matchCount = 0 then 7/10
  else if sent = 0 ∧ received = 0 then 3/10
  else if received > 0 ∧ sent = 0 then 2/10
  else if sent > 0 ∧ received = 0 then 5/10
  else
    let ratio : ℚ := (sent : ℚ) / (received : ℚ)
    let base : ℚ :=
      if 7/10 ≤ ratio ∧ ratio ≤ 3/2 then 1
      else if ratio < 7/10 then max (2/10) (ratio / (7/10))
      else max (5/10) (1 - (ratio - 3/2) * (2/10))
    min 1 (base + ((min (sent + received) 100 : ℕ) : ℚ) / 100 * (1/10))

/-- C7: for every non-negative message/match counters, the implemented
response-rate score agrees with the specification's case analysis, including
that the volume bonus is added only in the ratio branch. -/
theorem c7_response_rate_matches_spec (sent received matchCount : ℕ) :
    Services.calculate_response_rate_score sent received matchCount
      = responseRateSpec sent received matchCount := by
  unfold Services.calculate_response_rate_score responseRateSpec
  split_ifs <;> first | rfl | omega

/-- No branch of the similarity dispatch fires for this pair of answers: the
two answers populate different payload types, or the matching payloads are
absent or empty (Python-falsy). -/
def Mismatched (a1 a2 : Services.Answer) : Prop :=
  ¬(a1.numericAnswer.isSome ∧ a2.numericAnswer.isSome)
  ∧ ¬(a1.booleanAnswer.isSome ∧ a2.booleanAnswer.isSome)
  ∧ ¬(Services.truthyList a1.multipleChoiceAnswer ∧ Services.truthyList a2.multipleChoiceAnswer)
  ∧ ¬(Services.truthyStr a1.textAnswer ∧ Services.truthyStr a2.textAnswer)

instance (a1 a2 : Services.Answer) : Decidable (Mismatched a1 a2) := by
  unfold Mismatched
  infer_instance

/-- C10: a shared question whose two answers populate different payload types
(or whose matching payloads are absent/empty) is still counted as a common
question, with similarity 0.0 — not skipped and not given the neutral 0.5.
Concretely: one perfectly matching numeric question plus one mismatched
question average to 0.5 (counting the mismatch as 0), where skipping would
give 1.0 and a neutral default would give 0.75. -/
theorem c10_mismatched_payload_counts_as_zero :
    (∀ a1 a2 : Services.Answer, Mismatched a1 a2 → Services.answerSimilarity a1 a2 = 0)
    ∧ (∀ (u1 u2 : List Services.Answer) (a1 a2 : Services.Answer), a1 ∈ u1 →
        Services.answerMap u2 a1.questionId = some a2 →
        (a1, a2) ∈ Services.sharedPairs u1 u2)
    ∧ (Services.calculate_personality_score
        [⟨"q1", some "values", some 7, none, none, none⟩,
         ⟨"q2", some "values", none, none, some ["hiking"], none⟩]
        [⟨"q1", some "values", some 7, none, none, none⟩,
         ⟨"q2", some "values", none, some true, none, none⟩]).personalityScore = 1/2 := by
  refine ⟨?_, ?_, ?_⟩
  · intro a1 a2 h
    obtain ⟨h1, h2, h3, h4⟩ := h
    unfold Services.answerSimilarity
    rw [if_neg h1, if_neg h2, if_neg h3, if_neg h4]
  · intro u1 u2 a1 a2 hmem hmap
    unfold Services.sharedPairs
    exact List.mem_filterMap.mpr ⟨a1, hmem, by rw [hmap]; rfl⟩
  · have h1 : Services.sharedPairs
          [⟨"q1", some "values", some 7, none, none, none⟩,
           ⟨"q2", some "values", none, none, some ["hiking"], none⟩]
          [⟨"q1", some "values", some 7, none, none, none⟩,
           ⟨"q2", some "values", none, some true, none, none⟩]
        = [(⟨"q1", some "values", some 7, none, none, none⟩,
            ⟨"q1", some "values", some 7, none, none, none⟩),
           (⟨"q2", some "values", none, none, some ["hiking"], none⟩,
            ⟨"q2", some "values", none, some true, none, none⟩)] := rfl
    rw [Services.calculate_personality_score]
    rw [if_neg (by simp)]
    simp only [h1, List.length_cons, List.length_nil, List.map_cons, List.map_nil,
      List.sum_cons, List.sum_nil]
    rw [if_pos (by norm_num)]
    have hs1 : Services.answerSimilarity
        ⟨"q1", some "values", some 7, none, none, none⟩
        ⟨"q1", some "values", some 7, none, none, none⟩ = 1 := by
      unfold Services.answerSimilarity
      norm_num
    have hs2 : Services.answerSimilarity
        ⟨"q2", some "values", none, none, some ["hiking"], none⟩
        ⟨"q2", some "values", none, some true, none, none⟩ = 0 := by
      unfold Services.answerSimilarity
      norm_num [Services.truthyList, Services.truthyStr]
    rw [hs1, hs2]
    norm_num [pyRound, round_eq]

/-- C10 witness: the dispatch mismatch hypotheses hold at a concrete pair
(a multiple-choice answer against a boolean answer), and the theorem applies. -/
theorem c10_witness :
    Mismatched ⟨"q2", some "values", none, none, some ["hiking"], none⟩
        ⟨"q2", some "values", none, some true, none, none⟩
    ∧ Services.answerSimilarity ⟨"q2", some "values", none, none, some ["hiking"], none⟩
        ⟨"q2", some "values", none, some true, none, none⟩ = 0
    ∧ (⟨"q2", some "values", none, none, some ["hiking"], none⟩,
        (⟨"q2", some "values", none, some true, none, none⟩ : Services.Answer))
      ∈ Services.sharedPairs
        [⟨"q2", some "values", none, none, some ["hiking"], none⟩]
        [⟨"q2", some "values", none, some true, none, none⟩] := by
  refine ⟨by decide, ?_, ?_⟩
  · exact c10_mismatched_payload_counts_as_zero.1 _ _ (by decide)
  · exact c10_mismatched_payload_counts_as_zero.2.1 _ _ _ _ (by decide) (by decide)

theorem pyRound_three_half : pyRound 3 (1/2 : ℚ) = 1/2 := by
  norm_num [pyRound, round_eq]

theorem sharedPairs_eq_nil_of_no_common {u1 u2 : List Services.Answer}
    (h : ∀ a1 ∈ u1, ∀ a2 ∈ u2, a1.questionId ≠ a2.questionId) :
    Services.sharedPairs u1 u2 = [] := by
  unfold Services.sharedPairs
  rw [List.filterMap_eq_nil]
  intro a1 h1
  have hm : Services.answerMap u2 a1.questionId = none := by
    unfold Services.answerMap
    rw [List.find?_eq_none]
    intro a2 h2
    simp only [beq_iff_eq]
    exact fun he => (h a1 h1 a2 (List.mem_reverse.mp h2)) he.symm
  rw [hm]
  rfl

theorem categoryScores_eq_nil {u1 u2 : List Services.Answer} {c : String}
    (h : ∀ p ∈ Services.sharedPairs u1 u2, p.1.category ≠ some c) :
    Services.categoryScores c (Services.sharedPairs u1 u2) = [] := by
  unfold Services.categoryScores
  rw [List.filterMap_eq_nil]
  intro p hp
  rw [if_neg (h p hp)]

/-- C8: empty answer sequences or disjoint question IDs yield exactly 0.5 for
the personality score and each category; and with non-empty inputs, every
category that received no sampled shared answer is still reported as 0.5.
"No sampled shared answer" for category `c` means no shared answer whose
stored category is the string `c` — this covers answers with an explicit-null
category (`p.1.category = none`), which the code buckets into NO category, so
their similarity moves only the overall mean while all four fields default to
0.5. -/
theorem c8_neutral_personality_defaults :
    (∀ u1 u2 : List Services.Answer,
      (u1 = [] ∨ u2 = [] ∨ ∀ a1 ∈ u1, ∀ a2 ∈ u2, a1.questionId ≠ a2.questionId) →
      Services.calculate_personality_score u1 u2 = ⟨1/2, 1/2, 1/2, 1/2, 1/2⟩)
    ∧ (∀ u1 u2 : List Services.Answer,
        (∀ p ∈ Services.sharedPairs u1 u2, p.1.category ≠ some "communication") →
        (Services.calculate_personality_score u1 u2).communication = 1/2)
    ∧ (∀ u1 u2 : List Services.Answer,
        (∀ p ∈ Services.sharedPairs u1 u2, p.1.category ≠ some "values") →
        (Services.calculate_personality_score u1 u2).values = 1/2)
    ∧ (∀ u1 u2 : List Services.Answer,
        (∀ p ∈ Services.sharedPairs u1 u2, p.1.category ≠ some "lifestyle") →
        (Services.calculate_personality_score u1 u2).lifestyle = 1/2)
    ∧ (∀ u1 u2 : List Services.Answer,
        (∀ p ∈ Services.sharedPairs u1 u2, p.1.category ≠ some "personality") →
        (Services.calculate_personality_score u1 u2).personality = 1/2) := by
  have hcat : ∀ (u1 u2 : List Services.Answer) (c : String),
      (∀ p ∈ Services.sharedPairs u1 u2, p.1.category ≠ some c) →
      pyRound 3 (Services.categoryAverage
        (Services.categoryScores c (Services.sharedPairs u1 u2))) = 1/2 := by
    intro u1 u2 c h
    rw [categoryScores_eq_nil h]
    exact pyRound_three_half
  refine ⟨?_, ?_, ?_, ?_, ?_⟩
  · intro u1 u2 h
    rw [Services.calculate_personality_score]
    by_cases he : u1.isEmpty ∨ u2.isEmpty
    · rw [if_pos he]
    · rw [if_neg he]
      have hne : ¬(u1 = [] ∨ u2 = []) := by
        simpa [List.isEmpty_iff] using he
      have hsp : Services.sharedPairs u1 u2 = [] := by
        apply sharedPairs_eq_nil_of_no_common
        rcases h with h | h | h
        · exact absurd (Or.inl h) hne
        · exact absurd (Or.inr h) hne
        · exact h
      simp only [hsp]
      simp [Services.categoryScores, Services.categoryAverage, pyRound_three_half]
      norm_num [pyRound, round_eq]
  · intro u1 u2 h
    rw [Services.calculate_personality_score]
    by_cases he : u1.isEmpty ∨ u2.isEmpty
    · rw [if_pos he]
    · rw [if_neg he]
      exact hcat u1 u2 "communication" h
  · intro u1 u2 h
    rw [Services.calculate_personality_score]
    by_cases he : u1.isEmpty ∨ u2.isEmpty
    · rw [if_pos he]
    · rw [if_neg he]
      exact hcat u1 u2 "values" h
  · intro u1 u2 h
    rw [Services.calculate_personality_score]
    by_cases he : u1.isEmpty ∨ u2.isEmpty
    · rw [if_pos he]
    · rw [if_neg he]
      exact hcat u1 u2 "lifestyle" h
  · intro u1 u2 h
    rw [Services.calculate_personality_score]
    by_cases he : u1.isEmpty ∨ u2.isEmpty
    · rw [if_pos he]
    · rw [if_neg he]
      exact hcat u1 u2 "personality" h

/-- C8 witness: concrete instantiations discharging each hypothesis — empty
inputs, inputs with disjoint question IDs, a non-empty input whose only shared
answer is in category "values" (leaving "communication" at 0.5), and a shared
answer carrying an explicit-null category: it is bucketed into no category
(the "personality" field defaults to 0.5) even though its similarity 0.8 is
the overall score. -/
theorem c8_witness :
    Services.calculate_personality_score [] [] = ⟨1/2, 1/2, 1/2, 1/2, 1/2⟩
    ∧ Services.calculate_personality_score
        [⟨"q1", some "values", some 3, none, none, none⟩]
        [⟨"q2", some "values", some 3, none, none, none⟩] = ⟨1/2, 1/2, 1/2, 1/2, 1/2⟩
    ∧ (Services.calculate_personality_score
        [⟨"q1", some "values", some 3, none, none, none⟩]
        [⟨"q1", some "values", some 3, none, none, none⟩]).communication = 1/2
    ∧ (Services.calculate_personality_score
        [⟨"q1", none, some 1, none, none, none⟩]
        [⟨"q1", some "personality", some 3, none, none, none⟩]).personality = 1/2
    ∧ (Services.calculate_personality_score
        [⟨"q1", none, some 1, none, none, none⟩]
        [⟨"q1", some "personality", some 3, none, none, none⟩]).personalityScore = 8/10 := by
  refine ⟨?_, ?_, ?_, ?_, ?_⟩
  · exact c8_neutral_personality_defaults.1 [] [] (Or.inl rfl)
  · exact c8_neutral_personality_defaults.1 _ _ (Or.inr (Or.inr (by decide)))
  · exact c8_neutral_personality_defaults.2.1 _ _ (by decide)
  · exact c8_neutral_personality_defaults.2.2.2.2 _ _ (by decide)
  · have h1 : Services.sharedPairs
          [⟨"q1", none, some 1, none, none, none⟩]
          [⟨"q1", some "personality", some 3, none, none, none⟩]
        = [(⟨"q1", none, some 1, none, none, none⟩,
            ⟨"q1", some "personality", some 3, none, none, none⟩)] := rfl
    rw [Services.calculate_personality_score]
    rw [if_neg (by simp)]
    simp only [h1, List.length_cons, List.length_nil, List.map_cons, List.map_nil,
      List.sum_cons, List.sum_nil]
    rw [if_pos (by norm_num)]
    norm_num [Services.answerSimilarity, pyRound, round_eq]

/-- The basic-eligibility violations, as the claim enumerates them: an age
outside the other's declared range, a gender not in the other's
interested-gender set, or a distance exceeding either party's limit. -/
def BasicViolation (dist : App.DistanceFn) (u1 u2 : App.UserProfile) : Prop :=
  ¬(u1.preferences.min_age ≤ u2.age ∧ u2.age ≤ u1.preferences.max_age)
  ∨ ¬(u2.preferences.min_age ≤ u1.age ∧ u1.age ≤ u2.preferences.max_age)
  ∨ u2.gender ∉ u1.preferences.interested_in_genders
  ∨ u1.gender ∉ u2.preferences.interested_in_genders
  ∨ dist u1.latitude u1.longitude u2.latitude u2.longitude > u1.preferences.max_distance
  ∨ dist u1.latitude u1.longitude u2.latitude u2.longitude > u2.preferences.max_distance

instance (dist : App.DistanceFn) (u1 u2 : App.UserProfile) :
    Decidable (BasicViolation dist u1 u2) := by
  unfold BasicViolation
  infer_instance

theorem check_basic_eq_false_iff (dist : App.DistanceFn) (u1 u2 : App.UserProfile) :
    App._check_basic_compatibility dist u1 u2 = false ↔ BasicViolation dist u1 u2 := by
  unfold App._check_basic_compatibility BasicViolation
  split_ifs with h1 h2 h3 h4 <;> simp_all
  constructor
  · intro h
    by_cases hd : u1.preferences.max_distance
        < dist u1.latitude u1.longitude u2.latitude u2.longitude
    · exact Or.inl hd
    · exact Or.inr (h (not_lt.mp hd))
  · rintro (h | h) hle
    · exact absurd hle (not_le.mpr h)
    · exact h

/-- C2 (amended): whenever any basic-eligibility check fails, the aggregator
returns the constant gated result — score 0, all-zero breakdown, empty
shared-interests, and the single reason "Basic compatibility criteria not met"
— for EVERY personality, preferences and distance scoring function, i.e. the
result is computed without consulting the personality, preferences or interest
scores at all (the short-circuit of lines 39-48). -/
theorem c2_gate_short_circuits
    (persFn : List App.PersonalityAnswer → List App.PersonalityAnswer → ℚ)
    (prefFn : App.UserProfile → App.UserProfile → ℚ) (dist : App.DistanceFn)
    (settings : App.AppSettings) (u1 u2 : App.UserProfile)
    (h : BasicViolation dist u1 u2) :
    App.calculate_compatibility persFn prefFn dist settings u1 u2
      = ⟨0, 0, 0, [], ["Basic compatibility criteria not met"]⟩ := by
  have hc : App._check_basic_compatibility dist u1 u2 = false :=
    (check_basic_eq_false_iff dist u1 u2).mpr h
  unfold App.calculate_compatibility
  rw [if_pos (by simp [hc])]
  rfl

/-- The requester of the C2 scenario: age window 25-35, interested in women. -/
def cxProfile1 : App.UserProfile :=
  { user_id := "u1", age := 30, gender := App.Gender.man, latitude := 0, longitude := 0,
    personality_answers := [],
    preferences := { min_age := 25, max_age := 35, max_distance := 50,
                     interested_in_genders := [App.Gender.woman] },
    interests := [] }

/-- The candidate of the C2 scenario: age 50, outside the requester's window. -/
def cxProfile2 : App.UserProfile :=
  { user_id := "u2", age := 50, gender := App.Gender.woman, latitude := 0, longitude := 0,
    personality_answers := [],
    preferences := { min_age := 18, max_age := 100, max_distance := 50,
                     interested_in_genders := [App.Gender.man] },
    interests := [] }

/-- C2 counterexample: at a concrete gate-failing pair the returned reason list
is `["Basic compatibility criteria not met"]` (capital B), so it is NOT the
claimed `["basic compatibility criteria not met"]`. -/
theorem c2_counterexample :
    (App.calculate_compatibility (fun _ _ => 0) (fun _ _ => 0) (fun _ _ _ _ => 0) {}
        cxProfile1 cxProfile2).reasons
      = ["Basic compatibility criteria not met"]
    ∧ (App.calculate_compatibility (fun _ _ => 0) (fun _ _ => 0) (fun _ _ _ _ => 0) {}
        cxProfile1 cxProfile2).reasons
      ≠ ["basic compatibility criteria not met"] := by
  constructor
  · rfl
  · intro h
    exact absurd h (by decide)

/-- C2 witness: the amended theorem applied at the concrete age-violating pair. -/
theorem c2_witness :
    BasicViolation (fun _ _ _ _ => 0) cxProfile1 cxProfile2
    ∧ App.calculate_compatibility (fun _ _ => 0) (fun _ _ => 0) (fun _ _ _ _ => 0) {}
        cxProfile1 cxProfile2
      = ⟨0, 0, 0, [], ["Basic compatibility criteria not met"]⟩ := by
  constructor
  · exact Or.inl (by decide)
  · exact c2_gate_short_circuits _ _ _ _ _ _ (Or.inl (by decide))

theorem dealbreakerAgeStep_bounds (prefs : Services.Preferences) (a? : Option ℤ) :
    7/10 ≤ (Services.dealbreakerAgeStep prefs a?).1
    ∧ (Services.dealbreakerAgeStep prefs a?).1 ≤ 1 := by
  unfold Services.dealbreakerAgeStep
  rcases a? with _ | a
  · norm_num
  · dsimp only
    split_ifs <;> norm_num

theorem dealbreakerDistStep_bounds (s : ℚ × ℕ) (a b c d e : Option ℚ) :
    s.1 - 2/10 ≤ (Services.dealbreakerDistStep s a b c d e).1
    ∧ (Services.dealbreakerDistStep s a b c d e).1 ≤ s.1 := by
  unfold Services.dealbreakerDistStep
  rcases a with _ | a <;> rcases b with _ | b <;> rcases c with _ | c <;>
    rcases d with _ | d <;> rcases e with _ | e <;> dsimp only <;>
    try split_ifs
  all_goals constructor <;> dsimp only <;> linarith

theorem dealbreakerGenderStep_bounds (s : ℚ × ℕ) (g ug : Option String) :
    s.1 - 4/10 ≤ (Services.dealbreakerGenderStep s g ug).1
    ∧ (Services.dealbreakerGenderStep s g ug).1 ≤ s.1 := by
  unfold Services.dealbreakerGenderStep
  rcases g with _ | g <;> rcases ug with _ | ug <;> dsimp only <;> try split_ifs
  all_goals constructor <;> dsimp only <;> linarith

/-- The dealbreaker alignment can lose at most 0.3 + 0.2 + 0.4 = 0.9 from its
initial 1.0, so it always stays in [0.1, 1] (the no-check branch returns 0.7). -/
theorem dealbreaker_alignment_bounds (p1 p2 : Services.Profile) :
    1/10 ≤ Services._calculate_dealbreaker_alignment p1 p2
    ∧ Services._calculate_dealbreaker_alignment p1 p2 ≤ 1 := by
  unfold Services._calculate_dealbreaker_alignment
  dsimp only
  obtain ⟨ha1, ha2⟩ :=
    dealbreakerAgeStep_bounds (p1.preferences.getD {}) p2.age
  obtain ⟨hd1, hd2⟩ :=
    dealbreakerDistStep_bounds (Services.dealbreakerAgeStep (p1.preferences.getD {}) p2.age)
      p1.latitude p1.longitude p2.latitude p2.longitude (p1.preferences.getD {}).maxDistance
  obtain ⟨hg1, hg2⟩ :=
    dealbreakerGenderStep_bounds
      (Services.dealbreakerDistStep (Services.dealbreakerAgeStep (p1.preferences.getD {}) p2.age)
        p1.latitude p1.longitude p2.latitude p2.longitude (p1.preferences.getD {}).maxDistance)
      (p1.preferences.getD {}).gender p2.gender
  split_ifs
  · norm_num
  · constructor
    · refine le_trans (le_min (by norm_num) (by linarith)) (le_max_right 0 _)
    · exact max_le (by norm_num) (min_le_left 1 _)

theorem activity_two_hours (now : ℚ) :
    Services.calculate_activity_score now (some (now - 2)) none = 119/120 := by
  show Services.activityDecay (now - (now - 2)) = 119/120
  rw [show now - (now - 2) = (2:ℚ) by ring]
  unfold Services.activityDecay
  norm_num

theorem activity_sixty_days (now : ℚ) :
    Services.calculate_activity_score now (some (now - 1440)) none = 0 := by
  show Services.activityDecay (now - (now - 1440)) = 0
  rw [show now - (now - 1440) = (1440:ℚ) by ring]
  unfold Services.activityDecay
  norm_num

/-- Increasing the (3-decimal-rounded) advanced score's argument by at least
119/800 — the gap produced by a 2-hour-active versus 60-day-inactive partner —
moves the final 1-decimal score up by at least 5.81 points, surviving both
roundings. -/
theorem pyRound_blend_lt (P x y : ℚ) (h : x + 119/800 ≤ y) :
    pyRound 1 ((P * Services.V1_WEIGHT + pyRound 3 x * Services.V2_WEIGHT) * 100)
      < pyRound 1 ((P * Services.V1_WEIGHT + pyRound 3 y * Services.V2_WEIGHT) * 100) := by
  have hx := abs_le.mp (abs_pyRound_sub 3 x)
  have hy := abs_le.mp (abs_pyRound_sub 3 y)
  have hA := abs_le.mp (abs_pyRound_sub 1
    ((P * Services.V1_WEIGHT + pyRound 3 x * Services.V2_WEIGHT) * 100))
  have hB := abs_le.mp (abs_pyRound_sub 1
    ((P * Services.V1_WEIGHT + pyRound 3 y * Services.V2_WEIGHT) * 100))
  unfold Services.V1_WEIGHT Services.V2_WEIGHT at *
  obtain ⟨hx1, hx2⟩ := hx
  obtain ⟨hy1, hy2⟩ := hy
  obtain ⟨hA1, hA2⟩ := hA
  obtain ⟨hB1, hB2⟩ := hB
  norm_num at hx1 hx2 hy1 hy2 hA1 hA2 hB1 hB2
  nlinarith [hx1, hx2, hy1, hy2, hA1, hA2, hB1, hB2]

/-- C6 counterexample: the "for every pair of profiles" part of the claim is
false — when one profile's present preferences carry an explicit-null `minAge`
and the other's age is truthy, the v2 call raises TypeError at the dealbreaker
age check and returns NO result (modelled as `none`), rather than the weighted
blend. -/
theorem c6_counterexample :
    Services.calculate_compatibility_v2_run 0
        { userId := "n1", age := some 30,
          preferences := some { minAge := none, maxAge := some 100 } }
        { userId := "n2", age := some 25 }
      = none
    ∧ Services.v2Faults
        { userId := "n1", age := some 30,
          preferences := some { minAge := none, maxAge := some 100 } }
        { userId := "n2", age := some 25 } = true := by
  constructor
  · rfl
  · rfl

/-- C6 (amended): on every pair of profiles on which the dealbreaker age check
does not raise (no present preferences with an explicit-null `minAge`/`maxAge`
reached by a truthy age, in either direction), the v2 aggregation applies no
basic-eligibility gate: the call returns (successfully) the weighted blend
`personalityScore*0.6 + advancedScore*0.4` scaled to 0-100 and rounded — never
the gated zero-score result — even when age, gender, or distance violates the
other's declared preferences; preference violations influence only the
dealbreaker-alignment input of the reciprocity sub-score, which loses at most
0.3 + 0.2 + 0.4 = 0.9 from its initial 1.0 before clamping and hence stays in
[0.1, 1]. -/
theorem c6_v2_ungated_when_no_fault :
    (∀ (now : ℚ) (p1 p2 : Services.Profile), Services.v2Faults p1 p2 = false →
      Services.calculate_compatibility_v2_run now p1 p2
        = some (Services.calculate_compatibility_v2 now p1 p2)
      ∧ (Services.calculate_compatibility_v2 now p1 p2).compatibilityScore
        = pyRound 1
          (((Services.calculate_personality_score p1.personalityAnswers
                p2.personalityAnswers).personalityScore * Services.V1_WEIGHT
            + (Services.calculate_advanced_score now
                (Services.v2UserData
                  (Services.extract_shared_interests p1.interests p2.interests) p1 p2)
                (Services.v2UserData
                  (Services.extract_shared_interests p1.interests p2.interests) p2 p1)
                (Services.calculate_personality_score p1.personalityAnswers
                  p2.personalityAnswers).personalityScore).advancedScore
              * Services.V2_WEIGHT) * 100))
    ∧ (∀ p1 p2 : Services.Profile, Services.v2Faults p1 p2 = false →
        1/10 ≤ Services._calculate_dealbreaker_alignment p1 p2
        ∧ Services._calculate_dealbreaker_alignment p1 p2 ≤ 1) := by
  constructor
  · intro now p1 p2 hf
    refine ⟨?_, rfl⟩
    unfold Services.calculate_compatibility_v2_run
    rw [hf]
    rfl
  · intro p1 p2 _
    exact dealbreaker_alignment_bounds p1 p2

/-- C6 witness: the amended theorem applied at a concrete non-faulting pair
that violates the age preference — the call still succeeds and returns the
blend, and the alignment stays within [0.1, 1]. -/
theorem c6_witness :
    Services.v2Faults
        { userId := "v1", age := some 30,
          preferences := some { minAge := some 25, maxAge := some 35 } }
        { userId := "v2", age := some 50 } = false
    ∧ Services.calculate_compatibility_v2_run 0
        { userId := "v1", age := some 30,
          preferences := some { minAge := some 25, maxAge := some 35 } }
        { userId := "v2", age := some 50 }
      = some (Services.calculate_compatibility_v2 0
        { userId := "v1", age := some 30,
          preferences := some { minAge := some 25, maxAge := some 35 } }
        { userId := "v2", age := some 50 })
    ∧ (1/10 ≤ Services._calculate_dealbreaker_alignment
        { userId := "v1", age := some 30,
          preferences := some { minAge := some 25, maxAge := some 35 } }
        { userId := "v2", age := some 50 }
      ∧ Services._calculate_dealbreaker_alignment
        { userId := "v1", age := some 30,
          preferences := some { minAge := some 25, maxAge := some 35 } }
        { userId := "v2", age := some 50 } ≤ 1) := by
  refine ⟨by decide, ?_, ?_⟩
  · exact (c6_v2_ungated_when_no_fault.1 0 _ _ (by decide)).1
  · exact c6_v2_ungated_when_no_fault.2 _ _ (by decide)

/-- A personality answer whose numeric payload (when present) lies on the
questionnaire's nominal 1-10 scale. -/
def AnswerInScale (a : Services.Answer) : Prop :=
  ∀ n ∈ a.numericAnswer.toList, 1 ≤ n ∧ n ≤ 10

instance (a : Services.Answer) : Decidable (AnswerInScale a) := by
  unfold AnswerInScale
  infer_instance

/-- A profile whose activity timestamps do not lie in the future of the
evaluation instant `now`. -/
def TimestampsPast (now : ℚ) (p : Services.Profile) : Prop :=
  (∀ t ∈ p.lastActiveAt.toList, t ≤ now) ∧ (∀ t ∈ p.lastLoginAt.toList, t ≤ now)

instance (now : ℚ) (p : Services.Profile) : Decidable (TimestampsPast now p) := by
  unfold TimestampsPast
  infer_instance

theorem answerSimilarity_bounds {a1 a2 : Services.Answer}
    (h1 : AnswerInScale a1) (h2 : AnswerInScale a2) :
    0 ≤ Services.answerSimilarity a1 a2 ∧ Services.answerSimilarity a1 a2 ≤ 1 := by
  unfold Services.answerSimilarity
  by_cases hn : a1.numericAnswer.isSome = true ∧ a2.numericAnswer.isSome = true
  · rw [if_pos hn]
    obtain ⟨hs1, hs2⟩ := hn
    obtain ⟨n1, he1⟩ := Option.isSome_iff_exists.mp hs1
    obtain ⟨n2, he2⟩ := Option.isSome_iff_exists.mp hs2
    have hb1 := h1 n1 (by simp [he1])
    have hb2 := h2 n2 (by simp [he2])
    rw [he1, he2]
    simp only [Option.getD_some]
    have hc1 : (1:ℚ) ≤ (n1:ℚ) ∧ (n1:ℚ) ≤ 10 := by exact_mod_cast hb1
    have hc2 : (1:ℚ) ≤ (n2:ℚ) ∧ (n2:ℚ) ≤ 10 := by exact_mod_cast hb2
    have habs : |(n1:ℚ) - (n2:ℚ)| ≤ 9 :=
      abs_le.mpr ⟨by linarith [hc1.1, hc2.2], by linarith [hc1.2, hc2.1]⟩
    have habs0 : (0:ℚ) ≤ |(n1:ℚ) - (n2:ℚ)| := abs_nonneg _
    constructor <;> [linarith; linarith]
  · rw [if_neg hn]
    by_cases hb : a1.booleanAnswer.isSome = true ∧ a2.booleanAnswer.isSome = true
    · rw [if_pos hb]
      split_ifs <;> norm_num
    · rw [if_neg hb]
      by_cases hmc : Services.truthyList a1.multipleChoiceAnswer = true
          ∧ Services.truthyList a2.multipleChoiceAnswer = true
      · rw [if_pos hmc]
        dsimp only
        split_ifs with hcard
        · have hpos : 0 < (((a1.multipleChoiceAnswer.getD []).toFinset ∪
              (a2.multipleChoiceAnswer.getD []).toFinset).card : ℚ) := by
            exact_mod_cast Nat.pos_of_ne_zero hcard
          constructor
          · positivity
          · rw [div_le_one hpos]
            exact_mod_cast Finset.card_le_card Finset.inter_subset_union
        · norm_num
      · rw [if_neg hmc]
        by_cases ht : Services.truthyStr a1.textAnswer = true
            ∧ Services.truthyStr a2.textAnswer = true
        · rw [if_pos ht]
          split_ifs <;> norm_num
        · rw [if_neg ht]
          norm_num

theorem list_sum_bounds {l : List ℚ} (h : ∀ x ∈ l, 0 ≤ x ∧ x ≤ 1) :
    0 ≤ l.sum ∧ l.sum ≤ (l.length : ℚ) := by
  induction l with
  | nil => simp
  | cons a t ih =>
    obtain ⟨ha0, ha1⟩ := h a (List.mem_cons_self a t)
    obtain ⟨hs0, hs1⟩ := ih (fun x hx => h x (List.mem_cons_of_mem a hx))
    constructor
    · simp only [List.sum_cons]
      linarith
    · simp only [List.sum_cons, List.length_cons]
      push_cast
      linarith

theorem list_mean_bounds {l : List ℚ} (hne : l ≠ []) (h : ∀ x ∈ l, 0 ≤ x ∧ x ≤ 1) :
    0 ≤ l.sum / (l.length : ℚ) ∧ l.sum / (l.length : ℚ) ≤ 1 := by
  have hlen : (0:ℚ) < (l.length : ℚ) := by
    have : 0 < l.length := List.length_pos.mpr hne
    exact_mod_cast this
  obtain ⟨h0, h1⟩ := list_sum_bounds h
  constructor
  · positivity
  · rw [div_le_one hlen]
    simpa using h1

theorem categoryAverage_bounds {l : List ℚ} (h : ∀ x ∈ l, 0 ≤ x ∧ x ≤ 1) :
    0 ≤ Services.categoryAverage l ∧ Services.categoryAverage l ≤ 1 := by
  unfold Services.categoryAverage
  split_ifs with he
  · norm_num
  · exact list_mean_bounds (by simpa [List.isEmpty_iff] using he) h

theorem sharedPairs_mem {u1 u2 : List Services.Answer} {p : Services.Answer × Services.Answer}
    (hp : p ∈ Services.sharedPairs u1 u2) : p.1 ∈ u1 ∧ p.2 ∈ u2 := by
  unfold Services.sharedPairs at hp
  obtain ⟨a1, ha1, hmap⟩ := List.mem_filterMap.mp hp
  rcases hfind : Services.answerMap u2 a1.questionId with _ | a2
  · rw [hfind] at hmap
    simp at hmap
  · rw [hfind] at hmap
    have hmap2 : (a1, a2) = p := by simpa using hmap
    have ha2 : a2 ∈ u2 := by
      unfold Services.answerMap at hfind
      exact List.mem_reverse.mp (List.mem_of_find?_eq_some hfind)
    rw [← hmap2]
    exact ⟨ha1, ha2⟩

/-- All five fields of the personality result stay in [0,1] when numeric
answers respect the 1-10 scale. -/
theorem personality_result_bounds {u1 u2 : List Services.Answer}
    (h1 : ∀ a ∈ u1, AnswerInScale a) (h2 : ∀ a ∈ u2, AnswerInScale a) :
    (0 ≤ (Services.calculate_personality_score u1 u2).personalityScore
      ∧ (Services.calculate_personality_score u1 u2).personalityScore ≤ 1)
    ∧ (0 ≤ (Services.calculate_personality_score u1 u2).communication
      ∧ (Services.calculate_personality_score u1 u2).communication ≤ 1)
    ∧ (0 ≤ (Services.calculate_personality_score u1 u2).values
      ∧ (Services.calculate_personality_score u1 u2).values ≤ 1)
    ∧ (0 ≤ (Services.calculate_personality_score u1 u2).lifestyle
      ∧ (Services.calculate_personality_score u1 u2).lifestyle ≤ 1)
    ∧ (0 ≤ (Services.calculate_personality_score u1 u2).personality
      ∧ (Services.calculate_personality_score u1 u2).personality ≤ 1) := by
  have hsim : ∀ p ∈ Services.sharedPairs u1 u2,
      0 ≤ Services.answerSimilarity p.1 p.2 ∧ Services.answerSimilarity p.1 p.2 ≤ 1 := by
    intro p hp
    obtain ⟨hm1, hm2⟩ := sharedPairs_mem hp
    exact answerSimilarity_bounds (h1 p.1 hm1) (h2 p.2 hm2)
  have hcat : ∀ c : String,
      0 ≤ Services.categoryAverage (Services.categoryScores c (Services.sharedPairs u1 u2))
      ∧ Services.categoryAverage (Services.categoryScores c (Services.sharedPairs u1 u2)) ≤ 1 := by
    intro c
    apply categoryAverage_bounds
    intro x hx
    unfold Services.categoryScores at hx
    obtain ⟨p, hp, hxeq⟩ := List.mem_filterMap.mp hx
    by_cases hc : p.1.category = some c
    · rw [if_pos hc] at hxeq
      cases hxeq
      exact hsim p hp
    · rw [if_neg hc] at hxeq
      cases hxeq
  have hscore : 0 ≤ (if (Services.sharedPairs u1 u2).length > 0 then
        ((Services.sharedPairs u1 u2).map
          (fun p => Services.answerSimilarity p.1 p.2)).sum / ((Services.sharedPairs u1 u2).length : ℚ)
      else 1/2)
      ∧ (if (Services.sharedPairs u1 u2).length > 0 then
        ((Services.sharedPairs u1 u2).map
          (fun p => Services.answerSimilarity p.1 p.2)).sum / ((Services.sharedPairs u1 u2).length : ℚ)
      else 1/2) ≤ 1 := by
    split_ifs with hlen
    · have hmap : ∀ x ∈ (Services.sharedPairs u1 u2).map
          (fun p => Services.answerSimilarity p.1 p.2), 0 ≤ x ∧ x ≤ 1 := by
        intro x hx
        obtain ⟨p, hp, hxeq⟩ := List.mem_map.mp hx
        rw [← hxeq]
        exact hsim p hp
      have hne : (Services.sharedPairs u1 u2).map
          (fun p => Services.answerSimilarity p.1 p.2) ≠ [] := by
        intro hc
        rw [List.map_eq_nil_iff] at hc
        rw [hc] at hlen
        simp at hlen
      have := list_mean_bounds hne hmap
      simpa [List.length_map] using this
    · norm_num
  unfold Services.calculate_personality_score
  split_ifs with he
  · norm_num
  · exact ⟨pyRound_mem_unit 3 hscore.1 hscore.2,
      pyRound_mem_unit 3 (hcat "communication").1 (hcat "communication").2,
      pyRound_mem_unit 3 (hcat "values").1 (hcat "values").2,
      pyRound_mem_unit 3 (hcat "lifestyle").1 (hcat "lifestyle").2,
      pyRound_mem_unit 3 (hcat "personality").1 (hcat "personality").2⟩

theorem activityDecay_bounds {h : ℚ} (h0 : 0 ≤ h) :
    0 ≤ Services.activityDecay h ∧ Services.activityDecay h ≤ 1 := by
  unfold Services.activityDecay
  split_ifs with h1 h2 h3 h4
  · constructor <;> linarith
  · push_neg at h1
    constructor <;> linarith
  · push_neg at h2
    constructor <;> linarith
  · push_neg at h3
    constructor <;> linarith
  · push_neg at h4
    constructor
    · exact le_max_left 0 _
    · exact max_le (by norm_num) (by linarith)

theorem activity_score_bounds {now : ℚ} {la ll : Option ℚ}
    (hla : ∀ t ∈ la.toList, t ≤ now) (hll : ∀ t ∈ ll.toList, t ≤ now) :
    0 ≤ Services.calculate_activity_score now la ll
    ∧ Services.calculate_activity_score now la ll ≤ 1 := by
  unfold Services.calculate_activity_score
  rcases la with _ | a <;> rcases ll with _ | l
  · norm_num
  · exact activityDecay_bounds (by have := hll l (by simp); linarith)
  · exact activityDecay_bounds (by have := hla a (by simp); linarith)
  · have h1 := hla a (by simp)
    have h2 := hll l (by simp)
    exact activityDecay_bounds (by have : max a l ≤ now := max_le h1 h2; linarith)

theorem response_rate_bounds (s r m : ℕ) :
    0 ≤ Services.calculate_response_rate_score s r m
    ∧ Services.calculate_response_rate_score s r m ≤ 1 := by
  unfold Services.calculate_response_rate_score
  dsimp only
  have hbonus : (0:ℚ) ≤ ((min (s + r) 100 : ℕ) : ℚ) / 100 * (1/10) := by positivity
  split_ifs with h1 h2 h3 h4 h5 h6
  · norm_num
  · norm_num
  · norm_num
  · norm_num
  · constructor
    · exact le_min (by norm_num) (by linarith)
    · exact min_le_left _ _
  · have hsc := le_max_left (2/10 : ℚ) ((s:ℚ) / (r:ℚ) / (7/10))
    constructor
    · exact le_min (by norm_num) (by linarith)
    · exact min_le_left _ _
  · have hsc := le_max_left (5/10 : ℚ) (1 - ((s:ℚ) / (r:ℚ) - 3/2) * (2/10))
    constructor
    · exact le_min (by norm_num) (by linarith)
    · exact min_le_left _ _

theorem reciprocity_bounds (mi : ℕ) (d p : ℚ) :
    0 ≤ Services.calculate_reciprocity_score mi d p
    ∧ Services.calculate_reciprocity_score mi d p ≤ 1 := by
  unfold Services.calculate_reciprocity_score
  exact ⟨le_min (by norm_num) (le_max_left 0 _), min_le_left _ _⟩

theorem pyRound_mem_0_100 (n : ℕ) {x : ℚ} (h0 : 0 ≤ x) (h1 : x ≤ 100) :
    0 ≤ pyRound n x ∧ pyRound n x ≤ 100 :=
  ⟨pyRound_nonneg n h0,
   pyRound_le_of_le n ⟨100 * 10 ^ n, by push_cast; ring⟩ h1⟩

/-- All eight fields of the advanced-score result stay in [0,1] when the two
users' activity timestamps are not in the future. -/
theorem advanced_result_bounds (now : ℚ) (u t : Services.UserData) (p : ℚ)
    (hu1 : ∀ x ∈ u.lastActiveAt.toList, x ≤ now) (hu2 : ∀ x ∈ u.lastLoginAt.toList, x ≤ now)
    (ht1 : ∀ x ∈ t.lastActiveAt.toList, x ≤ now) (ht2 : ∀ x ∈ t.lastLoginAt.toList, x ≤ now) :
    let res := Services.calculate_advanced_score now u t p
    (0 ≤ res.activityScore ∧ res.activityScore ≤ 1)
    ∧ (0 ≤ res.responseRateScore ∧ res.responseRateScore ≤ 1)
    ∧ (0 ≤ res.reciprocityScore ∧ res.reciprocityScore ≤ 1)
    ∧ (0 ≤ res.advancedScore ∧ res.advancedScore ≤ 1)
    ∧ (0 ≤ res.userActivity ∧ res.userActivity ≤ 1)
    ∧ (0 ≤ res.targetActivity ∧ res.targetActivity ≤ 1)
    ∧ (0 ≤ res.userResponseRate ∧ res.userResponseRate ≤ 1)
    ∧ (0 ≤ res.targetResponseRate ∧ res.targetResponseRate ≤ 1) := by
  intro res
  obtain ⟨hua0, hua1⟩ := activity_score_bounds hu1 hu2
  obtain ⟨hta0, hta1⟩ := activity_score_bounds ht1 ht2
  obtain ⟨hur0, hur1⟩ := response_rate_bounds u.messagesSent u.messagesReceived u.matchesCount
  obtain ⟨htr0, htr1⟩ := response_rate_bounds t.messagesSent t.messagesReceived t.matchesCount
  obtain ⟨hrc0, hrc1⟩ := reciprocity_bounds u.mutualInterests
    (u.dealbreakerAlignment.getD (7/10)) p
  refine ⟨pyRound_mem_unit 3 (by linarith) (by linarith),
    pyRound_mem_unit 3 (by linarith) (by linarith),
    pyRound_mem_unit 3 (by linarith) (by linarith),
    pyRound_mem_unit 3 ?_ ?_,
    pyRound_mem_unit 3 (by linarith) (by linarith),
    pyRound_mem_unit 3 (by linarith) (by linarith),
    pyRound_mem_unit 3 (by linarith) (by linarith),
    pyRound_mem_unit 3 (by linarith) (by linarith)⟩
  · unfold Services.ACTIVITY_WEIGHT Services.RESPONSE_RATE_WEIGHT Services.RECIPROCITY_WEIGHT
    nlinarith
  · unfold Services.ACTIVITY_WEIGHT Services.RESPONSE_RATE_WEIGHT Services.RECIPROCITY_WEIGHT
    nlinarith

theorem dictLookup_not_mem {k : String} :
    ∀ (l : List (String × ℚ)) (acc : Option ℚ), k ∉ l.map Prod.fst →
    l.foldl (fun acc kv => if kv.1 == k then some kv.2 else acc) acc = acc := by
  intro l
  induction l with
  | nil => intro acc _; rfl
  | cons x t ih =>
    intro acc hk
    simp only [List.map_cons, List.mem_cons, not_or] at hk
    simp only [List.foldl_cons]
    rw [if_neg (by simp only [beq_iff_eq]; exact fun h => hk.1 h.symm)]
    exact ih acc hk.2

theorem dictLookup_eq_of_nodup {k : String} {v : ℚ} :
    ∀ (l : List (String × ℚ)), (l.map Prod.fst).Nodup → (k, v) ∈ l →
    App.dictLookup l k = some v := by
  intro l
  induction l with
  | nil => intro _ hm; exact absurd hm (List.not_mem_nil _)
  | cons x t ih =>
    intro hnd hm
    simp only [List.map_cons, List.nodup_cons] at hnd
    unfold App.dictLookup at *
    simp only [List.foldl_cons]
    rcases List.mem_cons.mp hm with he | ht
    · rw [← he]
      simp only [beq_self_eq_true, if_pos]
      rw [← he] at hnd
      exact dictLookup_not_mem t _ hnd.1
    · have hne : x.1 ≠ k := by
        intro hkx
        exact hnd.1 (hkx ▸ (List.mem_map.mpr ⟨(k, v), ht, rfl⟩))
      rw [if_neg (by simpa using hne)]
      exact ih hnd.2 ht

theorem compatible_ids_nodup
    (persFn : List App.PersonalityAnswer → List App.PersonalityAnswer → ℚ)
    (prefFn : App.UserProfile → App.UserProfile → ℚ) (dist : App.DistanceFn)
    (settings : App.AppSettings) (user : App.UserProfile) (avail : List App.UserProfile)
    (hnodup : (avail.map (fun p => p.user_id)).Nodup) :
    ((App.compatibleProfiles persFn prefFn dist settings user avail).map
      (fun ip => ip.2.user_id)).Nodup := by
  have hsub : (App.compatibleProfiles persFn prefFn dist settings user avail).Sublist
      avail.enum := List.filter_sublist _
  have hsubm : ((App.compatibleProfiles persFn prefFn dist settings user avail).map
      (fun ip => ip.2.user_id)).Sublist ((avail.enum).map (fun ip => ip.2.user_id)) :=
    hsub.map _
  have he : (avail.enum).map (fun ip : ℕ × App.UserProfile => ip.2.user_id)
      = avail.map (fun p => p.user_id) := by
    rw [show (fun ip : ℕ × App.UserProfile => ip.2.user_id)
        = (fun p : App.UserProfile => p.user_id) ∘ Prod.snd from rfl]
    rw [← List.map_map, List.enum_map_snd]
  rw [he] at hsubm
  exact hnodup.sublist hsubm

/-- On every profile that reached the threshold, the dict-lookup sort key
agrees with the profile's own compatibility score (this needs the data model's
invariant that user IDs are unique, since duplicate IDs would collide in the
score dict). -/
theorem sortKey_eq_candScore
    (persFn : List App.PersonalityAnswer → List App.PersonalityAnswer → ℚ)
    (prefFn : App.UserProfile → App.UserProfile → ℚ) (dist : App.DistanceFn)
    (settings : App.AppSettings) (user : App.UserProfile) (avail : List App.UserProfile)
    (hnodup : (avail.map (fun p => p.user_id)).Nodup)
    {ip : ℕ × App.UserProfile}
    (hm : ip ∈ App.compatibleProfiles persFn prefFn dist settings user avail) :
    App.sortKey persFn prefFn dist settings user avail ip.2
      = App.candScore persFn prefFn dist settings user ip.2 := by
  unfold App.sortKey
  have hmem : (ip.2.user_id, App.candScore persFn prefFn dist settings user ip.2)
      ∈ App.scoresDict persFn prefFn dist settings user avail := by
    unfold App.scoresDict
    exact List.mem_map.mpr ⟨ip, hm, rfl⟩
  have hnd : ((App.scoresDict persFn prefFn dist settings user avail).map Prod.fst).Nodup := by
    unfold App.scoresDict
    rw [List.map_map]
    exact compatible_ids_nodup persFn prefFn dist settings user avail hnodup
  rw [dictLookup_eq_of_nodup _ hnd hmem]
  rfl

/-- C4: the daily selection returns at most `selection_size` profiles, never a
profile scoring below the threshold, orders the ranked candidates by score
descending with ties broken by original input position (the stable sort), is a
pure function of its inputs (hence deterministic), and returns the empty
result on an empty candidate list.  The ordering statements need the data
model's invariant that user IDs are unique, because the sort key reads the
score dict by user ID.  Proved for every personality/preferences/distance
scoring function. -/
theorem c4_daily_selection_properties
    (persFn : List App.PersonalityAnswer → List App.PersonalityAnswer → ℚ)
    (prefFn : App.UserProfile → App.UserProfile → ℚ) (dist : App.DistanceFn)
    (settings : App.AppSettings) (user : App.UserProfile)
    (avail : List App.UserProfile) (size : ℕ)
    (hnodup : (avail.map (fun p => p.user_id)).Nodup) :
    (App.generate_daily_selection persFn prefFn dist settings user avail
        size).selected_profiles.length ≤ size
    ∧ (∀ p ∈ (App.generate_daily_selection persFn prefFn dist settings user avail
        size).selected_profiles,
        settings.MIN_COMPATIBILITY_SCORE ≤ App.candScore persFn prefFn dist settings user p)
    ∧ (App.generate_daily_selection persFn prefFn dist settings user avail
        size).selected_profiles.Pairwise
        (fun p q => App.candScore persFn prefFn dist settings user q
          ≤ App.candScore persFn prefFn dist settings user p)
    ∧ (App.rankedCandidates persFn prefFn dist settings user avail).Pairwise
        (fun x y => App.candScore persFn prefFn dist settings user y.2
            < App.candScore persFn prefFn dist settings user x.2
          ∨ (App.candScore persFn prefFn dist settings user x.2
              = App.candScore persFn prefFn dist settings user y.2 ∧ x.1 ≤ y.1))
    ∧ (avail = [] →
        App.generate_daily_selection persFn prefFn dist settings user avail size
          = ⟨[], []⟩) := by
  have hperm : (App.rankedCandidates persFn prefFn dist settings user avail).Perm
      (App.compatibleProfiles persFn prefFn dist settings user avail) :=
    List.perm_insertionSort _ _
  have hsorted : (App.rankedCandidates persFn prefFn dist settings user avail).Pairwise
      (App.selRel (App.sortKey persFn prefFn dist settings user avail)) :=
    List.sorted_insertionSort _ _
  have hsorted' : (App.rankedCandidates persFn prefFn dist settings user avail).Pairwise
      (fun x y => App.candScore persFn prefFn dist settings user y.2
          < App.candScore persFn prefFn dist settings user x.2
        ∨ (App.candScore persFn prefFn dist settings user x.2
            = App.candScore persFn prefFn dist settings user y.2 ∧ x.1 ≤ y.1)) := by
    refine hsorted.imp_of_mem ?_
    intro x y hx hy hr
    have hkx := sortKey_eq_candScore persFn prefFn dist settings user avail hnodup
      (hperm.subset hx)
    have hky := sortKey_eq_candScore persFn prefFn dist settings user avail hnodup
      (hperm.subset hy)
    unfold App.selRel at hr
    rw [hkx, hky] at hr
    exact hr
  have hmem_thresh : ∀ ip ∈ App.rankedCandidates persFn prefFn dist settings user avail,
      settings.MIN_COMPATIBILITY_SCORE ≤ App.candScore persFn prefFn dist settings user ip.2 := by
    intro ip hip
    have hc := hperm.subset hip
    unfold App.compatibleProfiles at hc
    have := List.mem_filter.mp hc
    simpa using this.2
  by_cases hav : avail.isEmpty
  · have hav' : avail = [] := by simpa [List.isEmpty_iff] using hav
    have hres : App.generate_daily_selection persFn prefFn dist settings user avail size
        = ⟨[], []⟩ := by
      unfold App.generate_daily_selection
      rw [if_pos hav]
    have hranked : App.rankedCandidates persFn prefFn dist settings user avail = [] := by
      subst hav'
      rfl
    rw [hres, hranked]
    simp
  · have hres : App.generate_daily_selection persFn prefFn dist settings user avail size
        = ⟨((App.rankedCandidates persFn prefFn dist settings user avail).take size).map
            (fun ip => ip.2),
          (((App.rankedCandidates persFn prefFn dist settings user avail).take size).map
            (fun ip => ip.2)).map (fun p =>
              (p.user_id, App.sortKey persFn prefFn dist settings user avail p))⟩ := by
      unfold App.generate_daily_selection
      rw [if_neg hav]
    rw [hres]
    refine ⟨?_, ?_, ?_, hsorted', ?_⟩
    · simp only [List.length_map, List.length_take]
      exact min_le_left _ _
    · intro p hp
      obtain ⟨ip, hip, hpe⟩ := List.mem_map.mp hp
      rw [← hpe]
      exact hmem_thresh ip (List.mem_of_mem_take hip)
    · refine List.pairwise_map.mpr ?_
      refine (hsorted'.sublist (List.take_sublist size _)).imp ?_
      intro x y hr
      rcases hr with hr | hr
      · exact le_of_lt hr
      · exact le_of_eq hr.1.symm
    · intro h
      rw [h] at hav
      simp at hav

/-- A requester for the C4 witness. -/
def selUser : App.UserProfile :=
  { user_id := "s0", age := 30, gender := App.Gender.man, latitude := 0, longitude := 0,
    personality_answers := [],
    preferences := { min_age := 18, max_age := 99, max_distance := 100,
                     interested_in_genders := [App.Gender.woman] },
    interests := [] }

/-- A candidate for the C4 witness. -/
def selCand1 : App.UserProfile := { selUser with user_id := "s1" }

/-- A second candidate for the C4 witness. -/
def selCand2 : App.UserProfile := { selUser with user_id := "s2" }

/-- C4 witness: the selection properties applied at a concrete candidate list
with (decidably) distinct user IDs. -/
theorem c4_witness :
    (([selCand1, selCand2].map (fun p => p.user_id)).Nodup)
    ∧ (App.generate_daily_selection (fun _ _ => 0) (fun _ _ => 0) (fun _ _ _ _ => 0) {}
        selUser [selCand1, selCand2] 1).selected_profiles.length ≤ 1 := by
  refine ⟨by decide, ?_⟩
  exact (c4_daily_selection_properties (fun _ _ => 0) (fun _ _ => 0) (fun _ _ _ _ => 0) {}
    selUser [selCand1, selCand2] 1 (by decide)).1

/-- C1 counterexample: with no precondition on the numeric scale the bounds
fail — numeric answers 1 and 100 give per-question similarity −8.9 ∉ [0,1] and
a final v1 compatibility score of −890 ∉ [0,100]. -/
theorem c1_counterexample :
    Services.answerSimilarity ⟨"q1", some "values", some 1, none, none, none⟩
        ⟨"q1", some "values", some 100, none, none, none⟩ = -89/10
    ∧ (Services.calculate_compatibility_v1
        { userId := "u1", personalityAnswers := [⟨"q1", some "values", some 1, none, none, none⟩] }
        { userId := "u2", personalityAnswers := [⟨"q1", some "values", some 100, none, none, none⟩] }
        ).compatibilityScore = -890
    ∧ ¬(0 ≤ (Services.calculate_compatibility_v1
        { userId := "u1", personalityAnswers := [⟨"q1", some "values", some 1, none, none, none⟩] }
        { userId := "u2", personalityAnswers := [⟨"q1", some "values", some 100, none, none, none⟩] }
        ).compatibilityScore) := by
  have hsim : Services.answerSimilarity ⟨"q1", some "values", some 1, none, none, none⟩
      ⟨"q1", some "values", some 100, none, none, none⟩ = -89/10 := by
    unfold Services.answerSimilarity
    norm_num
  have hps : (Services.calculate_personality_score
      [⟨"q1", some "values", some 1, none, none, none⟩]
      [⟨"q1", some "values", some 100, none, none, none⟩]).personalityScore = -89/10 := by
    have h1 : Services.sharedPairs
          [⟨"q1", some "values", some 1, none, none, none⟩]
          [⟨"q1", some "values", some 100, none, none, none⟩]
        = [(⟨"q1", some "values", some 1, none, none, none⟩,
            ⟨"q1", some "values", some 100, none, none, none⟩)] := rfl
    rw [Services.calculate_personality_score]
    rw [if_neg (by simp)]
    simp only [h1, List.length_cons, List.length_nil, List.map_cons, List.map_nil,
      List.sum_cons, List.sum_nil]
    rw [if_pos (by norm_num)]
    rw [hsim]
    norm_num [pyRound, round_eq]
  have hv1 : (Services.calculate_compatibility_v1
      { userId := "u1", personalityAnswers := [⟨"q1", some "values", some 1, none, none, none⟩] }
      { userId := "u2", personalityAnswers := [⟨"q1", some "values", some 100, none, none, none⟩] }
      ).compatibilityScore = -890 := by
    show pyRound 1 ((Services.calculate_personality_score
      [⟨"q1", some "values", some 1, none, none, none⟩]
      [⟨"q1", some "values", some 100, none, none, none⟩]).personalityScore * 100) = -890
    rw [hps]
    norm_num [pyRound, round_eq]
  refine ⟨hsim, hv1, ?_⟩
  rw [hv1]
  norm_num

/-- C1 (amended): provided each populated numeric answer lies on the nominal
1-10 scale and activity timestamps are not in the future of the evaluation
instant, every sub-score produced along the way (per-question similarity,
personalityScore, the four category breakdown values, activity score,
response-rate score, reciprocity score, and the advanced sub-scores) lies in
[0,1], and the final compatibility scores of both the v1 and the v2 path lie
in [0,100]. -/
theorem c1_scores_bounded :
    (∀ a1 a2 : Services.Answer, AnswerInScale a1 → AnswerInScale a2 →
      0 ≤ Services.answerSimilarity a1 a2 ∧ Services.answerSimilarity a1 a2 ≤ 1)
    ∧ (∀ s r m : ℕ, 0 ≤ Services.calculate_response_rate_score s r m
        ∧ Services.calculate_response_rate_score s r m ≤ 1)
    ∧ (∀ (mi : ℕ) (d p : ℚ), 0 ≤ Services.calculate_reciprocity_score mi d p
        ∧ Services.calculate_reciprocity_score mi d p ≤ 1)
    ∧ (∀ (now : ℚ) (la ll : Option ℚ),
        (∀ t ∈ la.toList, t ≤ now) → (∀ t ∈ ll.toList, t ≤ now) →
        0 ≤ Services.calculate_activity_score now la ll
        ∧ Services.calculate_activity_score now la ll ≤ 1)
    ∧ (∀ u1 u2 : List Services.Answer,
        (∀ a ∈ u1, AnswerInScale a) → (∀ a ∈ u2, AnswerInScale a) →
        (0 ≤ (Services.calculate_personality_score u1 u2).personalityScore
          ∧ (Services.calculate_personality_score u1 u2).personalityScore ≤ 1)
        ∧ (0 ≤ (Services.calculate_personality_score u1 u2).communication
          ∧ (Services.calculate_personality_score u1 u2).communication ≤ 1)
        ∧ (0 ≤ (Services.calculate_personality_score u1 u2).values
          ∧ (Services.calculate_personality_score u1 u2).values ≤ 1)
        ∧ (0 ≤ (Services.calculate_personality_score u1 u2).lifestyle
          ∧ (Services.calculate_personality_score u1 u2).lifestyle ≤ 1)
        ∧ (0 ≤ (Services.calculate_personality_score u1 u2).personality
          ∧ (Services.calculate_personality_score u1 u2).personality ≤ 1))
    ∧ (∀ p1 p2 : Services.Profile,
        (∀ a ∈ p1.personalityAnswers, AnswerInScale a) →
        (∀ a ∈ p2.personalityAnswers, AnswerInScale a) →
        0 ≤ (Services.calculate_compatibility_v1 p1 p2).compatibilityScore
        ∧ (Services.calculate_compatibility_v1 p1 p2).compatibilityScore ≤ 100)
    ∧ (∀ (now : ℚ) (p1 p2 : Services.Profile),
        (∀ a ∈ p1.personalityAnswers, AnswerInScale a) →
        (∀ a ∈ p2.personalityAnswers, AnswerInScale a) →
        TimestampsPast now p1 → TimestampsPast now p2 →
        (0 ≤ (Services.calculate_compatibility_v2 now p1 p2).compatibilityScore
          ∧ (Services.calculate_compatibility_v2 now p1 p2).compatibilityScore ≤ 100)
        ∧ (0 ≤ (Services.calculate_compatibility_v2 now p1 p2).advancedFactors.activityScore
          ∧ (Services.calculate_compatibility_v2 now p1 p2).advancedFactors.activityScore ≤ 1)
        ∧ (0 ≤ (Services.calculate_compatibility_v2 now p1 p2).advancedFactors.responseRateScore
          ∧ (Services.calculate_compatibility_v2 now p1 p2).advancedFactors.responseRateScore ≤ 1)
        ∧ (0 ≤ (Services.calculate_compatibility_v2 now p1 p2).advancedFactors.reciprocityScore
          ∧ (Services.calculate_compatibility_v2 now p1 p2).advancedFactors.reciprocityScore ≤ 1)) := by
  refine ⟨fun a1 a2 h1 h2 => answerSimilarity_bounds h1 h2,
    response_rate_bounds, reciprocity_bounds,
    fun now la ll hla hll => activity_score_bounds hla hll,
    fun u1 u2 h1 h2 => personality_result_bounds h1 h2,
    ?_, ?_⟩
  · intro p1 p2 h1 h2
    have hps := (personality_result_bounds h1 h2).1
    show 0 ≤ pyRound 1 ((Services.calculate_personality_score p1.personalityAnswers
        p2.personalityAnswers).personalityScore * 100)
      ∧ pyRound 1 ((Services.calculate_personality_score p1.personalityAnswers
        p2.personalityAnswers).personalityScore * 100) ≤ 100
    exact pyRound_mem_0_100 1 (by nlinarith [hps.1]) (by nlinarith [hps.2])
  · intro now p1 p2 h1 h2 hts1 hts2
    have hps := (personality_result_bounds h1 h2).1
    have hadv := advanced_result_bounds now
      (Services.v2UserData (Services.extract_shared_interests p1.interests p2.interests) p1 p2)
      (Services.v2UserData (Services.extract_shared_interests p1.interests p2.interests) p2 p1)
      (Services.calculate_personality_score p1.personalityAnswers
        p2.personalityAnswers).personalityScore
      hts1.1 hts1.2 hts2.1 hts2.2
    obtain ⟨hact, hresp, hrecip, hadvs, -, -, -, -⟩ := hadv
    refine ⟨?_, hact, hresp, hrecip⟩
    show 0 ≤ pyRound 1
        (((Services.calculate_personality_score p1.personalityAnswers
            p2.personalityAnswers).personalityScore * Services.V1_WEIGHT
          + (Services.calculate_advanced_score now
              (Services.v2UserData
                (Services.extract_shared_interests p1.interests p2.interests) p1 p2)
              (Services.v2UserData
                (Services.extract_shared_interests p1.interests p2.interests) p2 p1)
              (Services.calculate_personality_score p1.personalityAnswers
                p2.personalityAnswers).personalityScore).advancedScore
            * Services.V2_WEIGHT) * 100)
      ∧ pyRound 1
        (((Services.calculate_personality_score p1.personalityAnswers
            p2.personalityAnswers).personalityScore * Services.V1_WEIGHT
          + (Services.calculate_advanced_score now
              (Services.v2UserData
                (Services.extract_shared_interests p1.interests p2.interests) p1 p2)
              (Services.v2UserData
                (Services.extract_shared_interests p1.interests p2.interests) p2 p1)
              (Services.calculate_personality_score p1.personalityAnswers
                p2.personalityAnswers).personalityScore).advancedScore
            * Services.V2_WEIGHT) * 100) ≤ 100
    apply pyRound_mem_0_100 1
    · unfold Services.V1_WEIGHT Services.V2_WEIGHT
      nlinarith [hps.1, hps.2, hadvs.1, hadvs.2]
    · unfold Services.V1_WEIGHT Services.V2_WEIGHT
      nlinarith [hps.1, hps.2, hadvs.1, hadvs.2]

/-- C1 witness: the amended bounds applied at a concrete pair of in-scale,
not-in-the-future profiles. -/
theorem c1_witness :
    AnswerInScale ⟨"q1", some "values", some 5, none, none, none⟩
    ∧ TimestampsPast 0
        { userId := "w1",
          personalityAnswers := [⟨"q1", some "values", some 5, none, none, none⟩] }
    ∧ (0 ≤ (Services.calculate_compatibility_v2 0
          { userId := "w1",
            personalityAnswers := [⟨"q1", some "values", some 5, none, none, none⟩] }
          { userId := "w2",
            personalityAnswers := [⟨"q1", some "values", some 7, none, none, none⟩] }
          ).compatibilityScore
      ∧ (Services.calculate_compatibility_v2 0
          { userId := "w1",
            personalityAnswers := [⟨"q1", some "values", some 5, none, none, none⟩] }
          { userId := "w2",
            personalityAnswers := [⟨"q1", some "values", some 7, none, none, none⟩] }
          ).compatibilityScore ≤ 100) := by
  refine ⟨by decide, by decide, ?_⟩
  exact (c1_scores_bounded.2.2.2.2.2.2 0 _ _
    (by decide) (by decide) (by decide) (by decide)).1

/-- C9: for ANY two otherwise identical pairs — same base profiles `pA`, `pB`,
hence matching personality answers, messaging history and preferences — where
in one pair both users were last active 2 hours ago while in the other `pB`
has been inactive for 60 days (1440 h), the final v2 compatibility score of
the active/active pair is strictly greater, surviving both the 3-decimal
rounding of the advanced score and the 1-decimal rounding of the final
score. -/
theorem c9_active_pair_scores_strictly_higher (now : ℚ) (pA pB : Services.Profile) :
    (Services.calculate_compatibility_v2 now
        { pA with lastActiveAt := some (now - 2), lastLoginAt := none }
        { pB with lastActiveAt := some (now - 2), lastLoginAt := none }).compatibilityScore
    > (Services.calculate_compatibility_v2 now
        { pA with lastActiveAt := some (now - 2), lastLoginAt := none }
        { pB with lastActiveAt := some (now - 1440), lastLoginAt := none }).compatibilityScore := by
  show pyRound 1
      (((Services.calculate_personality_score pA.personalityAnswers pB.personalityAnswers).personalityScore
          * Services.V1_WEIGHT
        + pyRound 3
            ((Services.calculate_activity_score now (some (now - 2)) none
                + Services.calculate_activity_score now (some (now - 2)) none) / 2
                * Services.ACTIVITY_WEIGHT
              + (Services.calculate_response_rate_score pA.messagesSent pA.messagesReceived pA.matchesCount
                  + Services.calculate_response_rate_score pB.messagesSent pB.messagesReceived pB.matchesCount) / 2
                * Services.RESPONSE_RATE_WEIGHT
              + Services.calculate_reciprocity_score
                  (Services.extract_shared_interests pA.interests pB.interests).length
                  (Services._calculate_dealbreaker_alignment
                    { pA with lastActiveAt := some (now - 2), lastLoginAt := none }
                    { pB with lastActiveAt := some (now - 2), lastLoginAt := none })
                  (Services.calculate_personality_score pA.personalityAnswers pB.personalityAnswers).personalityScore
                * Services.RECIPROCITY_WEIGHT)
          * Services.V2_WEIGHT) * 100)
    > pyRound 1
      (((Services.calculate_personality_score pA.personalityAnswers pB.personalityAnswers).personalityScore
          * Services.V1_WEIGHT
        + pyRound 3
            ((Services.calculate_activity_score now (some (now - 2)) none
                + Services.calculate_activity_score now (some (now - 1440)) none) / 2
                * Services.ACTIVITY_WEIGHT
              + (Services.calculate_response_rate_score pA.messagesSent pA.messagesReceived pA.matchesCount
                  + Services.calculate_response_rate_score pB.messagesSent pB.messagesReceived pB.matchesCount) / 2
                * Services.RESPONSE_RATE_WEIGHT
              + Services.calculate_reciprocity_score
                  (Services.extract_shared_interests pA.interests pB.interests).length
                  (Services._calculate_dealbreaker_alignment
                    { pA with lastActiveAt := some (now - 2), lastLoginAt := none }
                    { pB with lastActiveAt := some (now - 1440), lastLoginAt := none })
                  (Services.calculate_personality_score pA.personalityAnswers pB.personalityAnswers).personalityScore
                * Services.RECIPROCITY_WEIGHT)
          * Services.V2_WEIGHT) * 100)
  have hdb : Services._calculate_dealbreaker_alignment
      { pA with lastActiveAt := some (now - 2), lastLoginAt := none }
      { pB with lastActiveAt := some (now - 1440), lastLoginAt := none }
    = Services._calculate_dealbreaker_alignment
      { pA with lastActiveAt := some (now - 2), lastLoginAt := none }
      { pB with lastActiveAt := some (now - 2), lastLoginAt := none } := rfl
  rw [hdb, activity_two_hours now, activity_sixty_days now]
  generalize (Services.calculate_personality_score pA.personalityAnswers
    pB.personalityAnswers).personalityScore = P
  generalize (Services.calculate_response_rate_score pA.messagesSent pA.messagesReceived pA.matchesCount
      + Services.calculate_response_rate_score pB.messagesSent pB.messagesReceived pB.matchesCount) / 2
      * Services.RESPONSE_RATE_WEIGHT = R
  generalize Services.calculate_reciprocity_score
      (Services.extract_shared_interests pA.interests pB.interests).length
      (Services._calculate_dealbreaker_alignment
        { pA with lastActiveAt := some (now - 2), lastLoginAt := none }
        { pB with lastActiveAt := some (now - 2), lastLoginAt := none }) P
      * Services.RECIPROCITY_WEIGHT = C
  exact pyRound_blend_lt P _ _ (by unfold Services.ACTIVITY_WEIGHT; linarith)
